import Mathlib

/-!
Verification of the physics core of the `physics-api` repository
(`server.js`), shallowly embedded in Lean 4.

Modelling conventions:
* JavaScript numbers are idealised as exact real numbers (`ℝ`); the
  material catalog, whose entries are decimal literals, is kept in `ℚ`
  so that it stays computable.
* `parseFloat(v.toFixed(d))` is modelled by `rnd d`, rounding to the
  nearest multiple of `10⁻ᵈ` with ties going up, which is exactly the
  `toFixed` tie-breaking rule ("pick the larger n").
* The `while (y >= 0)` loop of `calculateTrajectory` accumulates
  `t += 0.01` and breaks when `t > 300`; in exact arithmetic `t` after
  `k` increments is `k / 100`, so the loop is embedded as a recursion
  on the step counter `k` that stops when `(k + 1) / 100 > 300`.
-/

noncomputable section

/-- Rounding to `d` decimal places, modelling `parseFloat(v.toFixed(d))`. -/
def rnd (d : ℕ) (v : ℝ) : ℝ := ((round (v * 10 ^ d) : ℤ) : ℝ) / 10 ^ d

/-- A 2D vector, as the `{x, y}` records of the source. -/
structure Vec2 where
  x : ℝ
  y : ℝ

/-- `PHYSICS_CONSTANTS.GRAVITY`. -/
def GRAVITY : ℝ := 9.81

/-- `PHYSICS_CONSTANTS.AIR_DENSITY`. -/
def AIR_DENSITY : ℝ := 1.225

/-- One entry of the `MATERIALS` table.  The source literals are exact
decimals, so the fields are kept rational (hence computable). -/
structure MaterialProps where
  mass : ℚ
  radius : ℚ
  dragCoeff : ℚ
  bounciness : ℚ
deriving DecidableEq

/-- The `MATERIALS` object: property access `MATERIALS[name]` yields
`undefined` (here `none`) for an unknown key. -/
def MATERIALS (name : String) : Option MaterialProps :=
  if name = "basketball" then some { mass := 0.624, radius := 0.1194, dragCoeff := 0.47, bounciness := 0.85 }
  else if name = "soccer" then some { mass := 0.43, radius := 0.11, dragCoeff := 0.25, bounciness := 0.75 }
  else if name = "tennis" then some { mass := 0.057, radius := 0.0335, dragCoeff := 0.51, bounciness := 0.73 }
  else if name = "baseball" then some { mass := 0.145, radius := 0.037, dragCoeff := 0.3, bounciness := 0.55 }
  else if name = "golf" then some { mass := 0.046, radius := 0.021, dragCoeff := 0.24, bounciness := 0.78 }
  else if name = "bowling" then some { mass := 7.26, radius := 0.108, dragCoeff := 0.15, bounciness := 0.15 }
  else if name = "rock" then some { mass := 0.5, radius := 0.05, dragCoeff := 0.47, bounciness := 0.2 }
  else if name = "paper_airplane" then some { mass := 0.003, radius := 0.1, dragCoeff := 0.02, bounciness := 0.1 }
  else if name = "custom" then some { mass := 1, radius := 0.05, dragCoeff := 0.47, bounciness := 0.6 }
  else none

/-- `MATERIALS[material] || MATERIALS.custom`: the lookup used by every
core function. -/
def lookupMaterial (name : String) : MaterialProps :=
  (MATERIALS name).getD { mass := 1, radius := 0.05, dragCoeff := 0.47, bounciness := 0.6 }

/-! ## Collision resolver (`calculateCollision`) -/

/-- The optional fields a collision request object may carry; `none`
models an absent (or `undefined`) property. -/
structure CollisionFields where
  mass1 : Option ℝ := none
  velocity1 : Option Vec2 := none
  mass2 : Option ℝ := none
  velocity2 : Option Vec2 := none
  restitution : Option ℝ := none

/-- The fully-resolved inputs of the collision formulas, after the
spread-merge and the destructuring defaults have been applied. -/
structure CollisionParams where
  mass1 : ℝ
  velocity1 : Vec2
  mass2 : ℝ
  velocity2 : Vec2
  restitution : ℝ

/-- `v1Final` of the source: per-axis momentum-exchange update of the
first object, before output rounding. -/
def v1Final (q : CollisionParams) : Vec2 :=
  { x := q.velocity1.x - 2 * q.mass2 / (q.mass1 + q.mass2) * (q.velocity1.x - q.velocity2.x) * q.restitution,
    y := q.velocity1.y - 2 * q.mass2 / (q.mass1 + q.mass2) * (q.velocity1.y - q.velocity2.y) * q.restitution }

/-- `v2Final` of the source, before output rounding. -/
def v2Final (q : CollisionParams) : Vec2 :=
  { x := q.velocity2.x + 2 * q.mass1 / (q.mass1 + q.mass2) * (q.velocity1.x - q.velocity2.x) * q.restitution,
    y := q.velocity2.y + 2 * q.mass1 / (q.mass1 + q.mass2) * (q.velocity1.y - q.velocity2.y) * q.restitution }

/-- `initialKE` of the source. -/
def initialKE (q : CollisionParams) : ℝ :=
  0.5 * q.mass1 * (q.velocity1.x ^ 2 + q.velocity1.y ^ 2) +
    0.5 * q.mass2 * (q.velocity2.x ^ 2 + q.velocity2.y ^ 2)

/-- `finalKE` of the source. -/
def finalKE (q : CollisionParams) : ℝ :=
  0.5 * q.mass1 * ((v1Final q).x ^ 2 + (v1Final q).y ^ 2) +
    0.5 * q.mass2 * ((v2Final q).x ^ 2 + (v2Final q).y ^ 2)

/-- The record returned by `calculateCollision`. -/
structure CollisionResult where
  object1FinalVelocity : Vec2
  object2FinalVelocity : Vec2
  energyLoss : ℝ
  impactForce : ℝ

/-- The body of `calculateCollision` once its five inputs are resolved:
the momentum-exchange formulas, the energy bookkeeping, and the output
rounding to 3 decimals. -/
def collisionFromParams (q : CollisionParams) : CollisionResult :=
  { object1FinalVelocity := { x := rnd 3 (v1Final q).x, y := rnd 3 (v1Final q).y },
    object2FinalVelocity := { x := rnd 3 (v2Final q).x, y := rnd 3 (v2Final q).y },
    energyLoss := rnd 3 (initialKE q - finalKE q),
    impactForce := rnd 3 (q.mass1 *
      Real.sqrt ((q.velocity1.x - q.velocity2.x) ^ 2 + (q.velocity1.y - q.velocity2.y) ^ 2) / 0.01) }

/-- The destructuring `{mass1 = 1, velocity1 = {x:10,y:0}, mass2 = 1,
velocity2 = {x:-5,y:0}, restitution = 0.8} = {...obj1, ...obj2}`:
a property of `obj2` overrides one of `obj1`, and a field missing from
both falls back to the listed default. -/
def mergedParams (o1 o2 : CollisionFields) : CollisionParams :=
  { mass1 := (o2.mass1 <|> o1.mass1).getD 1,
    velocity1 := (o2.velocity1 <|> o1.velocity1).getD { x := 10, y := 0 },
    mass2 := (o2.mass2 <|> o1.mass2).getD 1,
    velocity2 := (o2.velocity2 <|> o1.velocity2).getD { x := -5, y := 0 },
    restitution := (o2.restitution <|> o1.restitution).getD 0.8 }

/-- `PhysicsEngine.calculateCollision`. -/
def calculateCollision (o1 o2 : CollisionFields) : CollisionResult :=
  collisionFromParams (mergedParams o1 o2)

/-- Modelled from the spec: the per-axis 1D elastic-exchange formulas of
section 4.3 of the specification, written exactly as the spec states
them; used only to compare against the implementation's `v1Final` and
`v2Final`. -/
def resolveSpec (m1 : ℝ) (v1 : Vec2) (m2 : ℝ) (v2 : Vec2) (e : ℝ) : Vec2 × Vec2 :=
  ({ x := v1.x - 2 * m2 / (m1 + m2) * (v1.x - v2.x) * e,
     y := v1.y - 2 * m2 / (m1 + m2) * (v1.y - v2.y) * e },
   { x := v2.x + 2 * m1 / (m1 + m2) * (v1.x - v2.x) * e,
     y := v2.y + 2 * m1 / (m1 + m2) * (v1.y - v2.y) * e })

/-! ## Force composer (`calculateForces`) -/

/-- The parameters of `calculateForces`, with the source's destructuring
defaults. -/
structure ForcesParams where
  mass : ℝ := 1
  velocity : Vec2 := { x := 0, y := 0 }
  height : ℝ := 0
  material : String := "basketball"
  includeAirResistance : Bool := true

/-- One force record `{magnitude, direction, vector}`. -/
structure ForceEntry where
  magnitude : ℝ
  direction : String
  vector : Vec2

/-- The net-force record `{magnitude, vector}`. -/
structure NetEntry where
  magnitude : ℝ
  vector : Vec2

/-- The record returned by `calculateForces`; `airResistance` is present
only when `includeAirResistance` is set. -/
structure ForcesResult where
  gravity : ForceEntry
  airResistance : Option ForceEntry
  buoyancy : ForceEntry
  net : NetEntry

/-- `speed = Math.sqrt(velocity.x**2 + velocity.y**2)` in
`calculateForces`. -/
def speedOf (q : ForcesParams) : ℝ := Real.sqrt (q.velocity.x ^ 2 + q.velocity.y ^ 2)

/-- The drag magnitude computed by `calculateForces`. -/
def dragMagnitudeF (q : ForcesParams) : ℝ :=
  0.5 * ((lookupMaterial q.material).dragCoeff : ℝ) * AIR_DENSITY *
    (Real.pi * ((lookupMaterial q.material).radius : ℝ) * ((lookupMaterial q.material).radius : ℝ)) *
    speedOf q * speedOf q

/-- The x component of the air-resistance vector: zero when the speed is
zero, per the explicit guard in the source. -/
def airResVecX (q : ForcesParams) : ℝ :=
  if 0 < speedOf q then rnd 3 (-dragMagnitudeF q * q.velocity.x / speedOf q) else 0

/-- The y component of the air-resistance vector. -/
def airResVecY (q : ForcesParams) : ℝ :=
  if 0 < speedOf q then rnd 3 (-dragMagnitudeF q * q.velocity.y / speedOf q) else 0

/-- The buoyant force magnitude of `calculateForces` (air density times
gravity times sphere volume). -/
def airBuoyancyOf (q : ForcesParams) : ℝ :=
  AIR_DENSITY * GRAVITY * (4 / 3 * Real.pi * ((lookupMaterial q.material).radius : ℝ) ^ 3)

/-- `PhysicsEngine.calculateForces`. -/
def calculateForces (q : ForcesParams) : ForcesResult :=
  let obj := lookupMaterial q.material
  let gravity : ForceEntry :=
    { magnitude := (obj.mass : ℝ) * GRAVITY,
      direction := "downward",
      vector := { x := 0, y := -(obj.mass : ℝ) * GRAVITY } }
  let airResistance : Option ForceEntry :=
    if q.includeAirResistance then
      some { magnitude := rnd 3 (dragMagnitudeF q),
             direction := "opposite to velocity",
             vector := { x := airResVecX q, y := airResVecY q } }
    else none
  let buoyancy : ForceEntry :=
    { magnitude := rnd 6 (airBuoyancyOf q),
      direction := "upward",
      vector := { x := 0, y := airBuoyancyOf q } }
  let netX : ℝ := gravity.vector.x +
    (match airResistance with
     | some f => f.vector.x
     | none => 0) + buoyancy.vector.x
  let netY : ℝ := gravity.vector.y +
    (match airResistance with
     | some f => f.vector.y
     | none => 0) + buoyancy.vector.y
  { gravity := gravity,
    airResistance := airResistance,
    buoyancy := buoyancy,
    net := { magnitude := rnd 3 (Real.sqrt (netX ^ 2 + netY ^ 2)),
             vector := { x := rnd 3 netX, y := rnd 3 netY } } }

/-! ## Impact estimator (`calculateImpact`) -/

/-- The record returned by `calculateImpact`. -/
structure ImpactResult where
  impactSpeed : ℝ
  kineticEnergy : ℝ
  impactForce : ℝ
  impactAngle : ℝ
  estimatedContactTime : ℝ

/-- `contactTime = obj.bounciness * 0.01`, the divisor of the impact
force estimate. -/
def contactTimeOf (material : String) : ℝ :=
  ((lookupMaterial material).bounciness : ℝ) * 0.01

/-- The `surfaceFactors[impactSurface] || 1.0` lookup. -/
def surfaceFactor (surface : String) : ℝ :=
  if surface = "concrete" then 1.0
  else if surface = "grass" then 0.7
  else if surface = "sand" then 0.5
  else if surface = "water" then 0.3
  else if surface = "wood" then 0.8
  else if surface = "metal" then 1.2
  else 1.0

/-- `Math.atan2` restricted to the non-negative arguments it receives in
`calculateImpact` (both arguments are absolute values there). -/
def atan2nn (b a : ℝ) : ℝ :=
  if a = 0 then (if b = 0 then 0 else Real.pi / 2) else Real.arctan (b / a)

/-- `PhysicsEngine.calculateImpact`. -/
def calculateImpact (finalVelocity : Vec2) (material surface : String) : ImpactResult :=
  let obj := lookupMaterial material
  let speed := Real.sqrt (finalVelocity.x * finalVelocity.x + finalVelocity.y * finalVelocity.y)
  let kineticEnergy := 0.5 * (obj.mass : ℝ) * speed * speed
  let impactForce := (obj.mass : ℝ) * speed / contactTimeOf material
  let adjustedForce := impactForce * surfaceFactor surface
  { impactSpeed := rnd 3 speed,
    kineticEnergy := rnd 3 kineticEnergy,
    impactForce := rnd 3 adjustedForce,
    impactAngle := rnd 2 (atan2nn |finalVelocity.y| |finalVelocity.x| * 180 / Real.pi),
    estimatedContactTime := rnd 2 (contactTimeOf material * 1000) }

/-! ## Trajectory integrator (`calculateTrajectory`) -/

/-- The parameters of `calculateTrajectory`, with the source's
destructuring defaults. -/
structure TrajParams where
  initialHeight : ℝ := 0
  initialVelocity : ℝ := 10
  launchAngle : ℝ := 45
  material : String := "basketball"
  windSpeed : ℝ := 0
  windDirection : ℝ := 0
  airDensity : ℝ := AIR_DENSITY
  gravity : ℝ := GRAVITY

/-- One entry of the returned trajectory array. -/
structure Sample where
  time : ℝ
  x : ℝ
  y : ℝ
  vx : ℝ
  vy : ℝ
  speed : ℝ

/-- The mutable loop state `(vx, vy, x, y)` of the integrator. -/
structure TrajState where
  vx : ℝ
  vy : ℝ
  x : ℝ
  y : ℝ

/-- `windX = windSpeed * Math.cos(windDirRad)`. -/
def windXOf (p : TrajParams) : ℝ :=
  p.windSpeed * Real.cos (p.windDirection * Real.pi / 180)

/-- `windY = windSpeed * Math.sin(windDirRad)`. -/
def windYOf (p : TrajParams) : ℝ :=
  p.windSpeed * Real.sin (p.windDirection * Real.pi / 180)

/-- `vRel`, the speed relative to the air. -/
def vRelOf (p : TrajParams) (s : TrajState) : ℝ :=
  Real.sqrt ((s.vx - windXOf p) * (s.vx - windXOf p) + (s.vy - windYOf p) * (s.vy - windYOf p))

/-- `dragMagnitude` of the integrator loop body. -/
def dragMagnitudeOf (p : TrajParams) (s : TrajState) : ℝ :=
  0.5 * ((lookupMaterial p.material).dragCoeff : ℝ) * p.airDensity *
    (Real.pi * ((lookupMaterial p.material).radius : ℝ) * ((lookupMaterial p.material).radius : ℝ)) *
    vRelOf p s * vRelOf p s

/-- `dragX`: drag acceleration along x, zero when the relative speed is
zero (the source's explicit guard against division by zero). -/
def dragAccelX (p : TrajParams) (s : TrajState) : ℝ :=
  if 0 < vRelOf p s then
    -dragMagnitudeOf p s * ((s.vx - windXOf p) / vRelOf p s) / ((lookupMaterial p.material).mass : ℝ)
  else 0

/-- `dragY`: drag acceleration along y, zero when the relative speed is
zero. -/
def dragAccelY (p : TrajParams) (s : TrajState) : ℝ :=
  if 0 < vRelOf p s then
    -dragMagnitudeOf p s * ((s.vy - windYOf p) / vRelOf p s) / ((lookupMaterial p.material).mass : ℝ)
  else 0

/-- One Euler step of the loop body: velocity update from gravity and
drag, then position update, with `dt = 0.01`. -/
def trajStep (p : TrajParams) (s : TrajState) : TrajState :=
  let vx1 := s.vx + dragAccelX p s * 0.01
  let vy1 := s.vy + (-p.gravity + dragAccelY p s) * 0.01
  { vx := vx1, vy := vy1, x := s.x + vx1 * 0.01, y := s.y + vy1 * 0.01 }

/-- The sample pushed by iteration `k`: the post-update state with the
pre-increment timestamp, all fields rounded to 3 decimals. -/
def mkSample (k : ℕ) (s1 : TrajState) : Sample :=
  { time := rnd 3 ((k : ℝ) / 100), x := rnd 3 s1.x, y := rnd 3 s1.y,
    vx := rnd 3 s1.vx, vy := rnd 3 s1.vy,
    speed := rnd 3 (Real.sqrt (s1.vx * s1.vx + s1.vy * s1.vy)) }

/-- The integrator loop.  At entry to iteration `k` the accumulated time
is `t = k / 100` exactly; the loop head tests `y >= 0`, the body pushes
one sample, and the bottom test `t > 300` (after `t += dt`) becomes
`(k + 1) / 100 > 300`. -/
def trajGo (p : TrajParams) (k : ℕ) (s : TrajState) : List Sample :=
  if s.y < 0 then []
  else
    mkSample k (trajStep p s) ::
    (if h : (300 : ℝ) < ((k : ℝ) + 1) / 100 then [] else trajGo p (k + 1) (trajStep p s))
termination_by 30000 - k
decreasing_by
  have h100 : ((k : ℝ) + 1) / 100 ≤ 300 := le_of_not_lt h
  have hk : (k : ℝ) + 1 ≤ 30000 := by
    have := (div_le_iff₀ (by norm_num : (0 : ℝ) < 100)).mp h100
    linarith
  have hk2 : k + 1 ≤ 30000 := by exact_mod_cast hk
  omega

/-- The initial state of the integrator. -/
def initState (p : TrajParams) : TrajState :=
  { vx := p.initialVelocity * Real.cos (p.launchAngle * Real.pi / 180),
    vy := p.initialVelocity * Real.sin (p.launchAngle * Real.pi / 180),
    x := 0,
    y := p.initialHeight }

/-- `PhysicsEngine.calculateTrajectory`. -/
def calculateTrajectory (p : TrajParams) : List Sample :=
  trajGo p 0 (initState p)

/-- The range derived by the caller: `x` of the final sample. -/
def rangeOf (p : TrajParams) : ℝ :=
  ((calculateTrajectory p).getLastD { time := 0, x := 0, y := 0, vx := 0, vy := 0, speed := 0 }).x

/-- The concrete parameter family used to analyse the headwind claim:
a flat launch (`launchAngle = 0`) from ground level with a pure
headwind (`windDirection = 180`), all other parameters at their
defaults. -/
def pFlat (v0 w : ℝ) : TrajParams :=
  { initialVelocity := v0, launchAngle := 0, windSpeed := w, windDirection := 180 }

/-- The closed form of the post-step horizontal velocity for the flat
launch family (one factor of pi from the cross-sectional area). -/
def flatVx1 (v0 w : ℝ) : ℝ :=
  v0 - 0.5 * 0.47 * 1.225 * (Real.pi * 0.1194 * 0.1194) * ((v0 + w) * (v0 + w)) / 0.624 * 0.01

/-- The parameter set showing that the integrator can produce 30001
samples: negative gravity and zero air density make the projectile
climb forever, so only the 300-second cutoff stops the loop. -/
def pStar : TrajParams :=
  { initialHeight := 0, initialVelocity := 10, launchAngle := 0, material := "custom",
    windSpeed := 0, windDirection := 0, airDensity := 0, gravity := -1 }

/-- The combined per-mass drag factor `0.5 * dragCoeff * airDensity *
(pi * radius²) / mass` of a parameter set; under a pure headwind the
drag accelerations of the loop body are `-dragCoefOf p * vRel * vRelX`
and `-dragCoefOf p * vRel * vRelY` (proved below, not assumed). -/
def dragCoefOf (p : TrajParams) : ℝ :=
  0.5 * ((lookupMaterial p.material).dragCoeff : ℝ) * p.airDensity *
    (Real.pi * ((lookupMaterial p.material).radius : ℝ) * ((lookupMaterial p.material).radius : ℝ)) /
    ((lookupMaterial p.material).mass : ℝ)

/-- A general rightward launch into a pure headwind: arbitrary height,
speed, angle, material, air density and gravity, wind direction 180. -/
def pGen (hh v0 a : ℝ) (mat : String) (w ρ g : ℝ) : TrajParams :=
  { initialHeight := hh, initialVelocity := v0, launchAngle := a, material := mat,
    windSpeed := w, windDirection := 180, airDensity := ρ, gravity := g }

/-- The elevated flat launch exhibiting the headwind range reversal:
height `0.00294`, speed 10, angle 0, basketball, pure headwind `w`. -/
def pRev (w : ℝ) : TrajParams :=
  { initialHeight := 0.00294, initialVelocity := 10, launchAngle := 0,
    windSpeed := w, windDirection := 180 }

/-- `dragCoefOf` for the basketball entry at the default air density. -/
def KB : ℝ := 0.5 * 0.47 * 1.225 * (Real.pi * 0.1194 * 0.1194) / 0.624

/-- Trace of the integrator at `pRev 0` (two iterations), written out
value by value; the lemmas `pRev0_step1`, `pRev0_step2` prove these are
exactly the states the loop passes through. -/
def vx1₀ : ℝ := 10 - KB

/-- Relative air speed entering the second `pRev 0` iteration. -/
def V1₀ : ℝ := Real.sqrt (vx1₀ * vx1₀ + 0.00962361)

/-- Horizontal velocity after the second `pRev 0` iteration. -/
def vx2₀ : ℝ := vx1₀ - KB * V1₀ * vx1₀ * 0.01

/-- Vertical velocity after the second `pRev 0` iteration. -/
def vy2₀ : ℝ := -0.1962 + KB * V1₀ * 0.000981

/-- Horizontal position after the second `pRev 0` iteration. -/
def x2₀ : ℝ := vx1₀ * 0.01 + vx2₀ * 0.01

/-- Height after the second `pRev 0` iteration (negative: the loop
stops after two samples). -/
def y2₀ : ℝ := 0.001959 + vy2₀ * 0.01

/-- Trace of the integrator at `pRev 10` (three iterations). -/
def vx1₁ : ℝ := 10 - KB * 4

/-- Relative air speed entering the second `pRev 10` iteration. -/
def V1₁ : ℝ := Real.sqrt ((vx1₁ + 10) * (vx1₁ + 10) + 0.00962361)

/-- Horizontal velocity after the second `pRev 10` iteration. -/
def vx2₁ : ℝ := vx1₁ - KB * V1₁ * (vx1₁ + 10) * 0.01

/-- Vertical velocity after the second `pRev 10` iteration. -/
def vy2₁ : ℝ := -0.1962 + KB * V1₁ * 0.000981

/-- Horizontal position after the second `pRev 10` iteration. -/
def x2₁ : ℝ := vx1₁ * 0.01 + vx2₁ * 0.01

/-- Height after the second `pRev 10` iteration (non-negative: the
stronger headwind drag keeps the projectile above ground one extra
step). -/
def y2₁ : ℝ := 0.001959 + vy2₁ * 0.01

/-- Relative air speed entering the third `pRev 10` iteration. -/
def V2₁ : ℝ := Real.sqrt ((vx2₁ + 10) * (vx2₁ + 10) + vy2₁ * vy2₁)

/-- Horizontal velocity after the third `pRev 10` iteration. -/
def vx3₁ : ℝ := vx2₁ - KB * V2₁ * (vx2₁ + 10) * 0.01

/-- Vertical velocity after the third `pRev 10` iteration. -/
def vy3₁ : ℝ := vy2₁ + (-9.81 - KB * V2₁ * vy2₁) * 0.01

/-- Horizontal position after the third `pRev 10` iteration. -/
def x3₁ : ℝ := x2₁ + vx3₁ * 0.01

/-- Height after the third `pRev 10` iteration (negative: the loop
stops after three samples). -/
def y3₁ : ℝ := y2₁ + vy3₁ * 0.01

end

/-! ## Helper lemmas -/

/-- Rounding a value with at most the given number of decimals is the
identity on integer multiples of the quantum; here for `0`. -/
lemma rnd_zero (d : ℕ) : rnd d 0 = 0 := by
  simp [rnd]

/-- `rnd` is monotone. -/
lemma rnd_mono {d : ℕ} {a b : ℝ} (h : a ≤ b) : rnd d a ≤ rnd d b := by
  unfold rnd
  have h10 : (0 : ℝ) < 10 ^ d := by positivity
  have hfl : round (a * 10 ^ d) ≤ round (b * 10 ^ d) := by
    rw [round_eq, round_eq]
    exact Int.floor_mono (by nlinarith)
  have hc : ((round (a * 10 ^ d) : ℤ) : ℝ) ≤ ((round (b * 10 ^ d) : ℤ) : ℝ) := by
    exact_mod_cast hfl
  exact div_le_div_of_nonneg_right hc h10.le

/-- `rnd` of a non-negative value is non-negative. -/
lemma rnd_nonneg {d : ℕ} {a : ℝ} (h : 0 ≤ a) : 0 ≤ rnd d a := by
  have := rnd_mono (d := d) h
  rwa [rnd_zero] at this

/-- Rounding to `d` decimals moves a value by at most half a quantum. -/
lemma abs_rnd_sub (d : ℕ) (v : ℝ) : |rnd d v - v| ≤ 1 / 2 / 10 ^ d := by
  unfold rnd
  have h10 : (0 : ℝ) < 10 ^ d := by positivity
  have h := abs_sub_round (v * 10 ^ d)
  rw [abs_sub_comm] at h
  have hrw : ((round (v * 10 ^ d) : ℤ) : ℝ) / 10 ^ d - v =
      (((round (v * 10 ^ d) : ℤ) : ℝ) - v * 10 ^ d) / 10 ^ d := by
    field_simp
    ring
  rw [hrw, abs_div, abs_of_pos h10]
  exact div_le_div_of_nonneg_right h h10.le

/-- Rounding half-quantum bound specialised to 3 decimals. -/
lemma abs_rnd3_sub (v : ℝ) : |rnd 3 v - v| ≤ 1 / 2000 := by
  have := abs_rnd_sub 3 v
  norm_num at this
  linarith

/-- The sample timestamps `k / 100` are exact two-decimal values, so the
3-decimal output rounding leaves them unchanged. -/
lemma rnd3_time (k : ℕ) : rnd 3 ((k : ℝ) / 100) = (k : ℝ) / 100 := by
  unfold rnd
  have h1 : (k : ℝ) / 100 * 10 ^ 3 = ((10 * k : ℕ) : ℝ) := by push_cast; ring
  rw [h1, round_natCast]
  push_cast
  ring

/-- Right-biased merge followed by a default equals nested defaulting. -/
lemma optOrElse_getD {α : Type} (a b : Option α) (d : α) :
    (a <|> b).getD d = a.getD (b.getD d) := by
  cases a <;> rfl

/-! ## Claim theorems: collision resolver -/

/-- C5: for every resolved input, the implementation's final velocities
are exactly the spec formulas, per axis, before output rounding; and the
worked example `resolve(mass1 = 2, v1 = (10,0), mass2 = 1, v2 = (0,0),
restitution = 1)` returns `finalVelocity1.x = 3.333 ≈ 3.33` and
`finalVelocity2.x = 13.333 ≈ 13.33`. -/
theorem C5_resolution_formula :
    (∀ q : CollisionParams,
      (v1Final q, v2Final q) =
        resolveSpec q.mass1 q.velocity1 q.mass2 q.velocity2 q.restitution) ∧
    (collisionFromParams { mass1 := 2, velocity1 := { x := 10, y := 0 }, mass2 := 1, velocity2 := { x := 0, y := 0 }, restitution := 1 }).object1FinalVelocity.x = 3.333 ∧
    |(3.333 : ℝ) - 3.33| ≤ 0.005 ∧
    (collisionFromParams { mass1 := 2, velocity1 := { x := 10, y := 0 }, mass2 := 1, velocity2 := { x := 0, y := 0 }, restitution := 1 }).object2FinalVelocity.x = 13.333 ∧
    |(13.333 : ℝ) - 13.33| ≤ 0.005 := by
  refine ⟨fun q => rfl, ?_, by rw [abs_le]; constructor <;> norm_num, ?_, by rw [abs_le]; constructor <;> norm_num⟩
  · show rnd 3 (v1Final _).x = 3.333
    have hx : (v1Final { mass1 := 2, velocity1 := { x := 10, y := 0 }, mass2 := 1, velocity2 := { x := 0, y := 0 }, restitution := 1 }).x = 10 / 3 := by
      unfold v1Final
      norm_num
    rw [hx]
    unfold rnd
    have h100 : round ((10 : ℝ) / 3 * 10 ^ 3) = 3333 := by
      rw [round_eq, Int.floor_eq_iff]
      norm_num
    rw [h100]
    norm_num
  · show rnd 3 (v2Final _).x = 13.333
    have hx : (v2Final { mass1 := 2, velocity1 := { x := 10, y := 0 }, mass2 := 1, velocity2 := { x := 0, y := 0 }, restitution := 1 }).x = 40 / 3 := by
      unfold v2Final
      norm_num
    rw [hx]
    unfold rnd
    have h100 : round ((40 : ℝ) / 3 * 10 ^ 3) = 13333 := by
      rw [round_eq, Int.floor_eq_iff]
      norm_num
    rw [h100]
    norm_num

/-- C3 (amended): for positive masses and restitution 1, the
pre-rounding final velocities conserve momentum exactly on each axis;
the returned (3-decimal rounded) velocities conserve it within an
absolute error of `(m1 + m2) / 2000` per axis. -/
theorem C3_momentum_conservation (m1 m2 : ℝ) (v1 v2 : Vec2) (hm1 : 0 < m1) (hm2 : 0 < m2) :
    (m1 * (v1Final { mass1 := m1, velocity1 := v1, mass2 := m2, velocity2 := v2, restitution := 1 }).x + m2 * (v2Final { mass1 := m1, velocity1 := v1, mass2 := m2, velocity2 := v2, restitution := 1 }).x = m1 * v1.x + m2 * v2.x) ∧
    (m1 * (v1Final { mass1 := m1, velocity1 := v1, mass2 := m2, velocity2 := v2, restitution := 1 }).y + m2 * (v2Final { mass1 := m1, velocity1 := v1, mass2 := m2, velocity2 := v2, restitution := 1 }).y = m1 * v1.y + m2 * v2.y) ∧
    |m1 * (collisionFromParams { mass1 := m1, velocity1 := v1, mass2 := m2, velocity2 := v2, restitution := 1 }).object1FinalVelocity.x + m2 * (collisionFromParams { mass1 := m1, velocity1 := v1, mass2 := m2, velocity2 := v2, restitution := 1 }).object2FinalVelocity.x - (m1 * v1.x + m2 * v2.x)| ≤ (m1 + m2) / 2000 ∧
    |m1 * (collisionFromParams { mass1 := m1, velocity1 := v1, mass2 := m2, velocity2 := v2, restitution := 1 }).object1FinalVelocity.y + m2 * (collisionFromParams { mass1 := m1, velocity1 := v1, mass2 := m2, velocity2 := v2, restitution := 1 }).object2FinalVelocity.y - (m1 * v1.y + m2 * v2.y)| ≤ (m1 + m2) / 2000 := by
  have hM : m1 + m2 ≠ 0 := by positivity
  have hx : m1 * (v1Final { mass1 := m1, velocity1 := v1, mass2 := m2, velocity2 := v2, restitution := 1 }).x + m2 * (v2Final { mass1 := m1, velocity1 := v1, mass2 := m2, velocity2 := v2, restitution := 1 }).x = m1 * v1.x + m2 * v2.x := by
    unfold v1Final v2Final
    field_simp
    ring
  have hy : m1 * (v1Final { mass1 := m1, velocity1 := v1, mass2 := m2, velocity2 := v2, restitution := 1 }).y + m2 * (v2Final { mass1 := m1, velocity1 := v1, mass2 := m2, velocity2 := v2, restitution := 1 }).y = m1 * v1.y + m2 * v2.y := by
    unfold v1Final v2Final
    field_simp
    ring
  refine ⟨hx, hy, ?_, ?_⟩
  · have d1 := abs_rnd3_sub (v1Final { mass1 := m1, velocity1 := v1, mass2 := m2, velocity2 := v2, restitution := 1 }).x
    have d2 := abs_rnd3_sub (v2Final { mass1 := m1, velocity1 := v1, mass2 := m2, velocity2 := v2, restitution := 1 }).x
    show |m1 * rnd 3 _ + m2 * rnd 3 _ - _| ≤ _
    have hd1 := abs_le.mp d1
    have hd2 := abs_le.mp d2
    rw [abs_le]
    constructor <;> nlinarith [hd1.1, hd1.2, hd2.1, hd2.2]
  · have d1 := abs_rnd3_sub (v1Final { mass1 := m1, velocity1 := v1, mass2 := m2, velocity2 := v2, restitution := 1 }).y
    have d2 := abs_rnd3_sub (v2Final { mass1 := m1, velocity1 := v1, mass2 := m2, velocity2 := v2, restitution := 1 }).y
    show |m1 * rnd 3 _ + m2 * rnd 3 _ - _| ≤ _
    have hd1 := abs_le.mp d1
    have hd2 := abs_le.mp d2
    rw [abs_le]
    constructor <;> nlinarith [hd1.1, hd1.2, hd2.1, hd2.2]

/-- C3 witness: the conservation theorem applied at the concrete input
`m1 = 2, m2 = 1, v1 = (10,0), v2 = (0,0)`. -/
theorem C3_momentum_conservation_witness :
    (2 * (v1Final { mass1 := 2, velocity1 := { x := 10, y := 0 }, mass2 := 1, velocity2 := { x := 0, y := 0 }, restitution := 1 }).x + 1 * (v2Final { mass1 := 2, velocity1 := { x := 10, y := 0 }, mass2 := 1, velocity2 := { x := 0, y := 0 }, restitution := 1 }).x = 2 * (10 : ℝ) + 1 * 0) ∧
    (2 * (v1Final { mass1 := 2, velocity1 := { x := 10, y := 0 }, mass2 := 1, velocity2 := { x := 0, y := 0 }, restitution := 1 }).y + 1 * (v2Final { mass1 := 2, velocity1 := { x := 10, y := 0 }, mass2 := 1, velocity2 := { x := 0, y := 0 }, restitution := 1 }).y = 2 * (0 : ℝ) + 1 * 0) ∧
    |2 * (collisionFromParams { mass1 := 2, velocity1 := { x := 10, y := 0 }, mass2 := 1, velocity2 := { x := 0, y := 0 }, restitution := 1 }).object1FinalVelocity.x + 1 * (collisionFromParams { mass1 := 2, velocity1 := { x := 10, y := 0 }, mass2 := 1, velocity2 := { x := 0, y := 0 }, restitution := 1 }).object2FinalVelocity.x - (2 * (10 : ℝ) + 1 * 0)| ≤ (2 + 1) / 2000 ∧
    |2 * (collisionFromParams { mass1 := 2, velocity1 := { x := 10, y := 0 }, mass2 := 1, velocity2 := { x := 0, y := 0 }, restitution := 1 }).object1FinalVelocity.y + 1 * (collisionFromParams { mass1 := 2, velocity1 := { x := 10, y := 0 }, mass2 := 1, velocity2 := { x := 0, y := 0 }, restitution := 1 }).object2FinalVelocity.y - (2 * (0 : ℝ) + 1 * 0)| ≤ (2 + 1) / 2000 :=
  C3_momentum_conservation 2 1 { x := 10, y := 0 } { x := 0, y := 0 } (by norm_num) (by norm_num)

/-- C3 counterexample: on the returned (rounded) velocities the claimed
relative tolerance of `1e-6` fails: with `m1 = m2 = 1`,
`v1 = (1/3, 0)`, `v2 = (0, 0)` and restitution 1 the returned momentum
is `0.333` against a true momentum of `1/3`, a relative error of about
`1e-3`. -/
theorem C3_momentum_conservation_counterexample :
    ¬ |1 * (calculateCollision {} { mass1 := some 1, velocity1 := some { x := 1 / 3, y := 0 }, mass2 := some 1, velocity2 := some { x := 0, y := 0 }, restitution := some 1 }).object1FinalVelocity.x + 1 * (calculateCollision {} { mass1 := some 1, velocity1 := some { x := 1 / 3, y := 0 }, mass2 := some 1, velocity2 := some { x := 0, y := 0 }, restitution := some 1 }).object2FinalVelocity.x - (1 * (1 / 3 : ℝ) + 1 * 0)| ≤ 1 / 1000000 * |1 * (1 / 3 : ℝ) + 1 * 0| := by
  have hq : mergedParams {} { mass1 := some 1, velocity1 := some { x := 1 / 3, y := 0 }, mass2 := some 1, velocity2 := some { x := 0, y := 0 }, restitution := some 1 } = { mass1 := 1, velocity1 := { x := 1 / 3, y := 0 }, mass2 := 1, velocity2 := { x := 0, y := 0 }, restitution := 1 } := by
    rfl
  unfold calculateCollision
  rw [hq]
  have h1 : (v1Final { mass1 := 1, velocity1 := { x := 1 / 3, y := 0 }, mass2 := 1, velocity2 := { x := 0, y := 0 }, restitution := 1 }).x = 0 := by
    unfold v1Final
    norm_num
  have h2 : (v2Final { mass1 := 1, velocity1 := { x := 1 / 3, y := 0 }, mass2 := 1, velocity2 := { x := 0, y := 0 }, restitution := 1 }).x = 1 / 3 := by
    unfold v2Final
    norm_num
  show ¬ |1 * rnd 3 (v1Final _).x + 1 * rnd 3 (v2Final _).x - _| ≤ _
  rw [h1, h2]
  have hr1 : rnd 3 (0 : ℝ) = 0 := rnd_zero 3
  have hr2 : rnd 3 ((1 : ℝ) / 3) = 333 / 1000 := by
    unfold rnd
    have : round ((1 : ℝ) / 3 * 10 ^ 3) = 333 := by
      rw [round_eq, Int.floor_eq_iff]
      norm_num
    rw [this]
    norm_num
  rw [hr1, hr2]
  rw [abs_le]
  intro h
  have hlow := h.1
  have habs : |(1 : ℝ) * (1 / 3) + 1 * 0| = 1 / 3 := by
    rw [abs_of_nonneg] <;> norm_num
  rw [habs] at hlow
  norm_num at hlow

/-- C4: for positive masses and restitution in `[0,1]` the returned
energy loss is non-negative; and at the concrete input with
restitution 2 (defaults otherwise: `m1 = m2 = 1`, `v1 = (10,0)`,
`v2 = (-5,0)`) the returned energy loss is `-450 < 0`. -/
theorem C4_energy_loss :
    (∀ q : CollisionParams, 0 < q.mass1 → 0 < q.mass2 → 0 ≤ q.restitution → q.restitution ≤ 1 →
      0 ≤ (collisionFromParams q).energyLoss) ∧
    (calculateCollision {} { restitution := some 2 }).energyLoss < 0 := by
  constructor
  · intro q hm1 hm2 he0 he1
    show 0 ≤ rnd 3 (initialKE q - finalKE q)
    apply rnd_nonneg
    have hM : q.mass1 + q.mass2 ≠ 0 := by positivity
    have key : initialKE q - finalKE q =
        2 * q.mass1 * q.mass2 / (q.mass1 + q.mass2) * q.restitution * (1 - q.restitution) *
          ((q.velocity1.x - q.velocity2.x) ^ 2 + (q.velocity1.y - q.velocity2.y) ^ 2) := by
      unfold initialKE finalKE v1Final v2Final
      field_simp
      ring
    rw [key]
    have hA : (0 : ℝ) ≤ 2 * q.mass1 * q.mass2 / (q.mass1 + q.mass2) := by positivity
    have hB : (0 : ℝ) ≤ 1 - q.restitution := by linarith
    have hC : (0 : ℝ) ≤ (q.velocity1.x - q.velocity2.x) ^ 2 + (q.velocity1.y - q.velocity2.y) ^ 2 := by
      positivity
    exact mul_nonneg (mul_nonneg (mul_nonneg hA he0) hB) hC
  · have hq : mergedParams {} { restitution := some 2 } = { mass1 := 1, velocity1 := { x := 10, y := 0 }, mass2 := 1, velocity2 := { x := -5, y := 0 }, restitution := 2 } := by
      rfl
    unfold calculateCollision
    rw [hq]
    show rnd 3 (initialKE _ - finalKE _) < 0
    have hke : initialKE { mass1 := 1, velocity1 := { x := 10, y := 0 }, mass2 := 1, velocity2 := { x := -5, y := 0 }, restitution := 2 } - finalKE { mass1 := 1, velocity1 := { x := 10, y := 0 }, mass2 := 1, velocity2 := { x := -5, y := 0 }, restitution := 2 } = -450 := by
      unfold initialKE finalKE v1Final v2Final
      norm_num
    rw [hke]
    unfold rnd
    have : round ((-450 : ℝ) * 10 ^ 3) = -450000 := by
      have hcast : (-450 : ℝ) * 10 ^ 3 = ((-450000 : ℤ) : ℝ) := by norm_num
      rw [hcast, round_intCast]
    rw [this]
    norm_num

/-- C4 witness: the non-negativity half applied at the concrete input
`m1 = m2 = 1`, `v1 = (10,0)`, `v2 = (-5,0)`, restitution `0.5`. -/
theorem C4_energy_loss_witness :
    0 ≤ (collisionFromParams { mass1 := 1, velocity1 := { x := 10, y := 0 }, mass2 := 1, velocity2 := { x := -5, y := 0 }, restitution := 0.5 }).energyLoss :=
  C4_energy_loss.1 { mass1 := 1, velocity1 := { x := 10, y := 0 }, mass2 := 1, velocity2 := { x := -5, y := 0 }, restitution := 0.5 }
    (by norm_num) (by norm_num) (by norm_num) (by norm_num)

/-- C10: `calculateCollision` depends on its two arguments only through
the spread-merge `{...obj1, ...obj2}`: a field present on both objects
takes `obj2`'s value, and a field present on neither falls back to the
defaults `mass1 = 1`, `velocity1 = (10,0)`, `mass2 = 1`,
`velocity2 = (-5,0)`, `restitution = 0.8`. -/
theorem C10_spread_merge (o1 o2 : CollisionFields) :
    calculateCollision o1 o2 = collisionFromParams { mass1 := o2.mass1.getD (o1.mass1.getD 1), velocity1 := o2.velocity1.getD (o1.velocity1.getD { x := 10, y := 0 }), mass2 := o2.mass2.getD (o1.mass2.getD 1), velocity2 := o2.velocity2.getD (o1.velocity2.getD { x := -5, y := 0 }), restitution := o2.restitution.getD (o1.restitution.getD 0.8) } := by
  unfold calculateCollision mergedParams
  simp only [optOrElse_getD]

/-! ## Claim theorems: force composer and material catalog -/

/-- C2 (amended): the gravity force vector returned by `calculateForces`
is `(0, -m·g)` where `m` is the mass of the looked-up MATERIAL — the
`mass` parameter of the request is ignored by this computation. -/
theorem C2_gravity_vector (q : ForcesParams) :
    (calculateForces q).gravity.vector.x = 0 ∧
    (calculateForces q).gravity.vector.y = -((lookupMaterial q.material).mass : ℝ) * GRAVITY :=
  ⟨rfl, rfl⟩

/-- C2 counterexample: with `mass := 5` (and the default material,
basketball, of mass `0.624`) the returned gravity vector's y component
is `-0.624 * 9.81 = -6.12144`, not `-(5 * 9.81) = -49.05` as the claim
would require. -/
theorem C2_gravity_vector_counterexample :
    (calculateForces { mass := 5 }).gravity.vector.y = -(0.624 : ℝ) * 9.81 ∧
    (calculateForces { mass := 5 }).gravity.vector.y ≠ -((5 : ℝ) * 9.81) := by
  have h : (calculateForces { mass := 5 }).gravity.vector.y =
      -((lookupMaterial "basketball").mass : ℝ) * GRAVITY := rfl
  have hbb : lookupMaterial "basketball" = { mass := 0.624, radius := 0.1194, dragCoeff := 0.47, bounciness := 0.85 } := by
    rfl
  constructor
  · rw [h, hbb]
    norm_num [GRAVITY]
  · rw [h, hbb]
    norm_num [GRAVITY]

/-- C7: the material lookup is total: every name yields properties with
positive mass, positive radius and restitution (bounciness) in `[0,1]`,
and any name outside the catalog deterministically yields the "custom"
default entry `{mass 1, radius 0.05, dragCoefficient 0.47,
restitution 0.6}`. -/
theorem C7_lookup_total :
    (∀ name : String, 0 < (lookupMaterial name).mass ∧ 0 < (lookupMaterial name).radius ∧
      0 ≤ (lookupMaterial name).bounciness ∧ (lookupMaterial name).bounciness ≤ 1) ∧
    (∀ name : String, MATERIALS name = none →
      lookupMaterial name = { mass := 1, radius := 0.05, dragCoeff := 0.47, bounciness := 0.6 }) := by
  constructor
  · intro name
    unfold lookupMaterial MATERIALS
    split_ifs <;> refine ⟨by norm_num, by norm_num, by norm_num, by norm_num⟩
  · intro name h
    unfold lookupMaterial
    rw [h]
    rfl

/-- C7 witness: the lookup theorem applied to the catalog name
"basketball" and to the non-catalog name "adamantium". -/
theorem C7_lookup_total_witness :
    (0 < (lookupMaterial "basketball").mass ∧ 0 < (lookupMaterial "basketball").radius ∧
      0 ≤ (lookupMaterial "basketball").bounciness ∧ (lookupMaterial "basketball").bounciness ≤ 1) ∧
    lookupMaterial "adamantium" = { mass := 1, radius := 0.05, dragCoeff := 0.47, bounciness := 0.6 } :=
  ⟨C7_lookup_total.1 "basketball", C7_lookup_total.2 "adamantium" (by decide)⟩

/-- C6: no division by zero in the core: the impact-force divisor
`contactTime = bounciness * 0.01` is nonzero for every material name,
and both the trajectory integrator and the force composer explicitly
zero out the drag components when the (relative) speed is zero. -/
theorem C6_no_division_by_zero :
    (∀ material : String, contactTimeOf material ≠ 0) ∧
    (∀ (p : TrajParams) (s : TrajState), vRelOf p s = 0 → dragAccelX p s = 0 ∧ dragAccelY p s = 0) ∧
    (∀ q : ForcesParams, speedOf q = 0 → airResVecX q = 0 ∧ airResVecY q = 0) := by
  refine ⟨?_, ?_, ?_⟩
  · intro material
    unfold contactTimeOf
    have hb : 0 < (lookupMaterial material).bounciness := by
      unfold lookupMaterial MATERIALS
      split_ifs <;> norm_num
    have hbr : (0 : ℝ) < ((lookupMaterial material).bounciness : ℝ) := by exact_mod_cast hb
    positivity
  · intro p s h
    constructor <;> simp [dragAccelX, dragAccelY, h]
  · intro q h
    constructor <;> simp [airResVecX, airResVecY, h]

/-- C6 witness: the theorem applied to the material "golf", to a resting
state with no wind, and to a force request with zero velocity. -/
theorem C6_no_division_by_zero_witness :
    contactTimeOf "golf" ≠ 0 ∧
    (dragAccelX { windSpeed := 0 } { vx := 0, vy := 0, x := 0, y := 0 } = 0 ∧
      dragAccelY { windSpeed := 0 } { vx := 0, vy := 0, x := 0, y := 0 } = 0) ∧
    (airResVecX { velocity := { x := 0, y := 0 } } = 0 ∧
      airResVecY { velocity := { x := 0, y := 0 } } = 0) :=
  ⟨C6_no_division_by_zero.1 "golf",
   C6_no_division_by_zero.2.1 { windSpeed := 0 } { vx := 0, vy := 0, x := 0, y := 0 }
     (by simp [vRelOf, windXOf, windYOf]),
   C6_no_division_by_zero.2.2 { velocity := { x := 0, y := 0 } }
     (by simp [speedOf])⟩

/-! ## Claim theorems: trajectory integrator -/

/-- Consequence of the loop's bottom test being false: the step counter
has not yet reached the 300-second cutoff. -/
lemma guard_false_le {k : ℕ} (h : ¬ (300 : ℝ) < ((k : ℝ) + 1) / 100) : k + 1 ≤ 30000 := by
  have h100 : ((k : ℝ) + 1) / 100 ≤ 300 := le_of_not_lt h
  have hk : (k : ℝ) + 1 ≤ 30000 := by
    have := (div_le_iff₀ (by norm_num : (0 : ℝ) < 100)).mp h100
    linarith
  exact_mod_cast hk

/-- Timestamps of samples produced at step counter `k ≤ 30000` are at
most 300 seconds. -/
lemma sample_time_le {k : ℕ} (hk : k ≤ 30000) : rnd 3 ((k : ℝ) / 100) ≤ 300 := by
  rw [rnd3_time]
  have h : (k : ℝ) ≤ 30000 := by exact_mod_cast hk
  linarith

/-- Core resource bound of the integrator loop: starting at step
counter `k ≤ 30000` it produces at most `30001 - k` samples, each with
timestamp at most 300 s. -/
lemma trajGo_bounds (p : TrajParams) :
    ∀ (n k : ℕ) (s : TrajState), 30000 - k ≤ n → k ≤ 30000 →
      (trajGo p k s).length ≤ 30001 - k ∧ ∀ smp ∈ trajGo p k s, smp.time ≤ 300 := by
  intro n
  induction n with
  | zero =>
    intro k s hn hk
    have hk30 : k = 30000 := by omega
    subst hk30
    rw [trajGo]
    by_cases hy : s.y < 0
    · rw [if_pos hy]
      refine ⟨by norm_num, ?_⟩
      intro smp hsmp
      simp at hsmp
    · rw [if_neg hy]
      have hguard : (300 : ℝ) < (((30000 : ℕ) : ℝ) + 1) / 100 := by
        norm_num
      rw [dif_pos hguard]
      refine ⟨by norm_num, ?_⟩
      intro smp hsmp
      rw [List.mem_singleton] at hsmp
      subst hsmp
      show rnd 3 _ ≤ 300
      exact sample_time_le (le_refl 30000)
  | succ m ih =>
    intro k s hn hk
    rw [trajGo]
    by_cases hy : s.y < 0
    · rw [if_pos hy]
      refine ⟨by simp, ?_⟩
      intro smp hsmp
      simp at hsmp
    · rw [if_neg hy]
      by_cases hguard : (300 : ℝ) < ((k : ℝ) + 1) / 100
      · rw [dif_pos hguard]
        refine ⟨by simp only [List.length_cons, List.length_nil]; omega, ?_⟩
        intro smp hsmp
        rw [List.mem_singleton] at hsmp
        subst hsmp
        show rnd 3 _ ≤ 300
        exact sample_time_le hk
      · rw [dif_neg hguard]
        have hk1 : k + 1 ≤ 30000 := guard_false_le hguard
        have hrec := ih (k + 1) (trajStep p s) (by omega) hk1
        constructor
        · have := hrec.1
          simp only [List.length_cons]
          omega
        · intro smp hsmp
          rw [List.mem_cons] at hsmp
          rcases hsmp with hsmp | hsmp
          · subst hsmp
            exact sample_time_le hk
          · exact hrec.2 smp hsmp

/-- C1 (amended): the integrator always terminates with a finite sample
list whose timestamps never exceed 300 simulated seconds, and it
produces at most 30001 samples (the 30000 bound of the claim is off by
one: the loop body that pushes the sample at `t = 300.00` runs before
the `t > 300` break fires). -/
theorem C1_termination_bounds (p : TrajParams) :
    (calculateTrajectory p).length ≤ 30001 ∧
    ∀ smp ∈ calculateTrajectory p, smp.time ≤ 300 := by
  have h := trajGo_bounds p 30000 0 (initState p) (by omega) (by omega)
  exact ⟨by simpa using h.1, h.2⟩

/-- C8: under the documented parameter constraints (in particular a
non-negative initial height) the integrator returns at least one
sample: the head test `y >= 0` passes on the first iteration, which
unconditionally pushes a sample. -/
theorem C8_trajectory_nonempty (p : TrajParams) (h0 : 0 ≤ p.initialHeight)
    (_h1 : 0 < p.initialVelocity) (_h2 : -90 ≤ p.launchAngle) (_h3 : p.launchAngle ≤ 90)
    (_h4 : 0 ≤ p.windSpeed) (_h5 : 0 < p.airDensity) (_h6 : 0 < p.gravity) :
    calculateTrajectory p ≠ [] := by
  unfold calculateTrajectory
  rw [trajGo]
  have hy : ¬ (initState p).y < 0 := by
    simp only [initState]
    exact not_lt.mpr h0
  rw [if_neg hy]
  exact List.cons_ne_nil _ _

/-- C8 witness: the non-emptiness theorem applied at the default
parameter set (height 0, speed 10, angle 45, basketball, no wind). -/
theorem C8_trajectory_nonempty_witness : calculateTrajectory {} ≠ [] :=
  C8_trajectory_nonempty {} (le_refl 0) (by norm_num) (by norm_num) (by norm_num)
    (le_refl 0) (by norm_num [AIR_DENSITY]) (by norm_num [GRAVITY])

/-- With zero air density (as in `pStar`) the drag magnitude vanishes. -/
lemma dragMagnitudeOf_pStar (s : TrajState) : dragMagnitudeOf pStar s = 0 := by
  simp [dragMagnitudeOf, pStar]

/-- With zero air density the x drag acceleration vanishes in both
branches of the zero-speed guard. -/
lemma dragAccelX_pStar (s : TrajState) : dragAccelX pStar s = 0 := by
  unfold dragAccelX
  rw [dragMagnitudeOf_pStar]
  split_ifs <;> simp

/-- With zero air density the y drag acceleration vanishes. -/
lemma dragAccelY_pStar (s : TrajState) : dragAccelY pStar s = 0 := by
  unfold dragAccelY
  rw [dragMagnitudeOf_pStar]
  split_ifs <;> simp

/-- The Euler step under `pStar`: gravity `-1` makes the vertical
velocity grow by `0.01` each step and nothing else changes it. -/
lemma trajStep_pStar (s : TrajState) :
    trajStep pStar s = { vx := s.vx, vy := s.vy + 0.01, x := s.x + s.vx * 0.01, y := s.y + (s.vy + 0.01) * 0.01 } := by
  unfold trajStep
  rw [dragAccelX_pStar, dragAccelY_pStar]
  simp [pStar]

/-- Under `pStar` the projectile never descends, so every iteration up
to the cutoff pushes a sample: starting at counter `k` the loop yields
exactly `30001 - k` samples. -/
lemma trajGo_pStar_length :
    ∀ (n k : ℕ) (s : TrajState), 30000 - k ≤ n → k ≤ 30000 → 0 ≤ s.y → 0 ≤ s.vy →
      (trajGo pStar k s).length = 30001 - k := by
  intro n
  induction n with
  | zero =>
    intro k s hn hk hy hvy
    have hk30 : k = 30000 := by omega
    subst hk30
    rw [trajGo, if_neg (not_lt.mpr hy),
      dif_pos (by norm_num : (300 : ℝ) < (((30000 : ℕ) : ℝ) + 1) / 100)]
    simp
  | succ m ih =>
    intro k s hn hk hy hvy
    rw [trajGo, if_neg (not_lt.mpr hy)]
    by_cases hguard : (300 : ℝ) < ((k : ℝ) + 1) / 100
    · rw [dif_pos hguard]
      have hk30 : 30000 ≤ k := by
        by_contra hlt
        push_neg at hlt
        have hle : k + 1 ≤ 30000 := by omega
        have hc : (k : ℝ) + 1 ≤ 30000 := by exact_mod_cast hle
        have : ((k : ℝ) + 1) / 100 ≤ 300 := by linarith
        linarith
      have hkeq : k = 30000 := le_antisymm hk hk30
      subst hkeq
      simp
    · rw [dif_neg hguard]
      have hk1 := guard_false_le hguard
      have hs1 := trajStep_pStar s
      have hy1 : 0 ≤ (trajStep pStar s).y := by
        rw [hs1]
        show (0 : ℝ) ≤ s.y + (s.vy + 0.01) * 0.01
        nlinarith
      have hvy1 : 0 ≤ (trajStep pStar s).vy := by
        rw [hs1]
        show (0 : ℝ) ≤ s.vy + 0.01
        linarith
      have hrec := ih (k + 1) (trajStep pStar s) (by omega) hk1 hy1 hvy1
      simp only [List.length_cons, hrec]
      omega

/-- C1 counterexample: at `pStar` (gravity `-1`, air density `0`) the
integrator runs the full 300 simulated seconds and returns 30001
samples, exceeding the claimed bound of 30000. -/
theorem C1_termination_bounds_counterexample :
    (calculateTrajectory pStar).length = 30001 ∧ 30000 < (calculateTrajectory pStar).length := by
  have hy0 : 0 ≤ (initState pStar).y := by
    show (0 : ℝ) ≤ pStar.initialHeight
    norm_num [pStar]
  have hvy0 : 0 ≤ (initState pStar).vy := by
    show (0 : ℝ) ≤ pStar.initialVelocity * Real.sin (pStar.launchAngle * Real.pi / 180)
    simp [pStar]
  have h := trajGo_pStar_length 30000 0 (initState pStar) (by omega) (by omega) hy0 hvy0
  unfold calculateTrajectory
  rw [h]
  norm_num

/-- The basketball entry of the catalog, as returned by the lookup. -/
lemma lookup_basketball :
    lookupMaterial "basketball" = { mass := 0.624, radius := 0.1194, dragCoeff := 0.47, bounciness := 0.85 } := rfl

/-- The wind x component for the flat-launch family: direction 180
degrees means the wind vector is `(-w, 0)`. -/
lemma windXOf_pFlat (v0 w : ℝ) : windXOf (pFlat v0 w) = -w := by
  show w * Real.cos ((180 : ℝ) * Real.pi / 180) = -w
  have h : (180 : ℝ) * Real.pi / 180 = Real.pi := by
    field_simp
  rw [h, Real.cos_pi]
  ring

/-- The wind y component for the flat-launch family is zero. -/
lemma windYOf_pFlat (v0 w : ℝ) : windYOf (pFlat v0 w) = 0 := by
  show w * Real.sin ((180 : ℝ) * Real.pi / 180) = 0
  have h : (180 : ℝ) * Real.pi / 180 = Real.pi := by
    field_simp
  rw [h, Real.sin_pi, mul_zero]

/-- The initial state of a flat launch: horizontal speed `v0`, ground
level. -/
lemma initState_pFlat (v0 w : ℝ) :
    initState (pFlat v0 w) = { vx := v0, vy := 0, x := 0, y := 0 } := by
  unfold initState pFlat
  simp

/-- On the first iteration of a flat launch the relative speed is
`v0 + w`. -/
lemma vRelOf_pFlat (v0 w : ℝ) (hv : 0 < v0) (hw : 0 ≤ w) :
    vRelOf (pFlat v0 w) (initState (pFlat v0 w)) = v0 + w := by
  unfold vRelOf
  rw [initState_pFlat, windXOf_pFlat, windYOf_pFlat]
  show Real.sqrt ((v0 - -w) * (v0 - -w) + (0 - 0) * (0 - 0)) = v0 + w
  have h : (v0 - -w) * (v0 - -w) + ((0 : ℝ) - 0) * (0 - 0) = (v0 + w) ^ 2 := by ring
  rw [h, Real.sqrt_sq (by linarith)]

/-- The drag magnitude of the first flat-launch iteration. -/
lemma dragMag_pFlat (v0 w : ℝ) (hv : 0 < v0) (hw : 0 ≤ w) :
    dragMagnitudeOf (pFlat v0 w) (initState (pFlat v0 w)) =
      0.5 * 0.47 * 1.225 * (Real.pi * 0.1194 * 0.1194) * ((v0 + w) * (v0 + w)) := by
  unfold dragMagnitudeOf
  rw [vRelOf_pFlat v0 w hv hw]
  have hmat : (pFlat v0 w).material = "basketball" := rfl
  rw [hmat, lookup_basketball]
  have hden : (pFlat v0 w).airDensity = AIR_DENSITY := rfl
  rw [hden]
  show 0.5 * ((0.47 : ℚ) : ℝ) * AIR_DENSITY * (Real.pi * ((0.1194 : ℚ) : ℝ) * ((0.1194 : ℚ) : ℝ)) * (v0 + w) * (v0 + w) = _
  norm_num [AIR_DENSITY]
  ring

/-- The Euler step of the first flat-launch iteration, in closed form:
the horizontal velocity drops by the drag impulse, the vertical
velocity becomes `-0.0981`, and the height becomes `-0.000981 < 0`, so
the loop stops after this single iteration. -/
lemma trajStep_pFlat (v0 w : ℝ) (hv : 0 < v0) (hw : 0 ≤ w) :
    trajStep (pFlat v0 w) (initState (pFlat v0 w)) =
      { vx := flatVx1 v0 w, vy := -0.0981, x := flatVx1 v0 w * 0.01, y := -0.000981 } := by
  have hvw : (0 : ℝ) < v0 + w := by linarith
  have hrel := vRelOf_pFlat v0 w hv hw
  have hdx : dragAccelX (pFlat v0 w) (initState (pFlat v0 w)) =
      -(0.5 * 0.47 * 1.225 * (Real.pi * 0.1194 * 0.1194) * ((v0 + w) * (v0 + w))) / 0.624 := by
    unfold dragAccelX
    rw [hrel, if_pos hvw, dragMag_pFlat v0 w hv hw, initState_pFlat, windXOf_pFlat]
    have hmat : (pFlat v0 w).material = "basketball" := rfl
    rw [hmat, lookup_basketball]
    show -(0.5 * 0.47 * 1.225 * (Real.pi * 0.1194 * 0.1194) * ((v0 + w) * (v0 + w))) * ((v0 - -w) / (v0 + w)) / ((0.624 : ℚ) : ℝ) = _
    rw [show v0 - -w = v0 + w by ring, div_self (ne_of_gt hvw)]
    norm_num
  have hdy : dragAccelY (pFlat v0 w) (initState (pFlat v0 w)) = 0 := by
    unfold dragAccelY
    rw [hrel, if_pos hvw, windYOf_pFlat]
    have hvy : (initState (pFlat v0 w)).vy = 0 := by rw [initState_pFlat]
    rw [hvy]
    simp
  unfold trajStep
  rw [hdx, hdy, initState_pFlat]
  have hg : (pFlat v0 w).gravity = GRAVITY := rfl
  rw [hg]
  show ({ vx := v0 + -(0.5 * 0.47 * 1.225 * (Real.pi * 0.1194 * 0.1194) * ((v0 + w) * (v0 + w))) / 0.624 * 0.01, vy := 0 + (-GRAVITY + 0) * 0.01, x := 0 + (v0 + -(0.5 * 0.47 * 1.225 * (Real.pi * 0.1194 * 0.1194) * ((v0 + w) * (v0 + w))) / 0.624 * 0.01) * 0.01, y := 0 + (0 + (-GRAVITY + 0) * 0.01) * 0.01 } : TrajState) = _
  unfold flatVx1 GRAVITY
  simp only [TrajState.mk.injEq]
  refine ⟨by ring, by norm_num, by ring, by norm_num⟩

/-- A flat launch produces exactly one sample. -/
lemma calcTraj_pFlat (v0 w : ℝ) (hv : 0 < v0) (hw : 0 ≤ w) :
    calculateTrajectory (pFlat v0 w) =
      [mkSample 0 (trajStep (pFlat v0 w) (initState (pFlat v0 w)))] := by
  unfold calculateTrajectory
  rw [trajGo]
  have hy0 : ¬ (initState (pFlat v0 w)).y < 0 := by
    rw [initState_pFlat]
    show ¬ (0 : ℝ) < 0
    norm_num
  rw [if_neg hy0, dif_neg (by norm_num : ¬ (300 : ℝ) < (((0 : ℕ) : ℝ) + 1) / 100)]
  rw [trajGo]
  have hy1 : (trajStep (pFlat v0 w) (initState (pFlat v0 w))).y < 0 := by
    rw [trajStep_pFlat v0 w hv hw]
    show (-0.000981 : ℝ) < 0
    norm_num
  rw [if_pos hy1]

/-- The range of a flat launch in closed form. -/
lemma rangeOf_pFlat (v0 w : ℝ) (hv : 0 < v0) (hw : 0 ≤ w) :
    rangeOf (pFlat v0 w) = rnd 3 (flatVx1 v0 w * 0.01) := by
  unfold rangeOf
  rw [calcTraj_pFlat v0 w hv hw, trajStep_pFlat v0 w hv hw]
  simp [mkSample, List.getLastD]

/-- For any headwind up to `1e-6` the single flat-launch sample rounds
to the same range `0.1`. -/
lemma rnd3_flat_small (w : ℝ) (hw : 0 ≤ w) (hw1 : w ≤ 1 / 1000000) :
    rnd 3 (flatVx1 10 w * 0.01) = 0.1 := by
  have hpi1 := Real.pi_gt_d6
  have hpi2 := Real.pi_lt_d6
  have hpi0 := Real.pi_pos
  have hsq1 : (100 : ℝ) ≤ (10 + w) * (10 + w) := by nlinarith
  have hsq2 : (10 + w) * (10 + w) ≤ 100.0000201 := by nlinarith
  have hPS1 : Real.pi * ((10 + w) * (10 + w)) ≤ 3.141593 * 100.0000201 := by nlinarith
  have hPS0 : 0 ≤ Real.pi * ((10 + w) * (10 + w)) := by positivity
  have hval : flatVx1 10 w * 0.01 * 10 ^ 3 =
      100 - 0.5 * 0.47 * 1.225 * 0.1194 * 0.1194 / 0.624 * 0.1 *
        (Real.pi * ((10 + w) * (10 + w))) := by
    unfold flatVx1
    ring
  unfold rnd
  have hround : round (flatVx1 10 w * 0.01 * 10 ^ 3) = 100 := by
    rw [round_eq, Int.floor_eq_iff]
    constructor
    · push_cast
      linarith [hval, hPS1]
    · push_cast
      linarith [hval, hPS0]
  rw [hround]
  norm_num


/-- Every catalog entry (and the custom fallback) has positive mass,
radius and drag coefficient. -/
lemma lookup_pos (name : String) :
    0 < (lookupMaterial name).mass ∧ 0 < (lookupMaterial name).radius ∧
      0 < (lookupMaterial name).dragCoeff := by
  unfold lookupMaterial MATERIALS
  split_ifs <;> refine ⟨by norm_num, by norm_num, by norm_num⟩

/-- Upper bound on a square root from a square bound. -/
lemma sqrt_le_of_sq_le {a hi : ℝ} (h : a ≤ hi * hi) (h0 : 0 ≤ hi) : Real.sqrt a ≤ hi := by
  have hs := Real.sqrt_le_sqrt h
  rwa [Real.sqrt_mul_self h0] at hs

/-- Lower bound on a square root from a square bound. -/
lemma le_sqrt_of_sq_le {a lo : ℝ} (h : lo * lo ≤ a) (h0 : 0 ≤ lo) : lo ≤ Real.sqrt a := by
  have hs := Real.sqrt_le_sqrt h
  rwa [Real.sqrt_mul_self h0] at hs

/-- Product bounds for non-negative quantities. -/
lemma mul_le_bounds {a b alo ahi blo bhi : ℝ} (ha1 : alo ≤ a) (ha2 : a ≤ ahi)
    (hb1 : blo ≤ b) (hb2 : b ≤ bhi) (h1 : 0 ≤ alo) (h2 : 0 ≤ blo) :
    alo * blo ≤ a * b ∧ a * b ≤ ahi * bhi := by
  constructor
  · exact mul_le_mul ha1 hb1 h2 (le_trans h1 ha1)
  · exact mul_le_mul ha2 hb2 (le_trans h2 hb1) (le_trans (le_trans h1 ha1) ha2)

/-- Wind direction 180 degrees gives the wind vector `(-w, 0)`. -/
lemma windXOf_headwind (p : TrajParams) (hdir : p.windDirection = 180) :
    windXOf p = -p.windSpeed := by
  unfold windXOf
  rw [hdir]
  have h : (180 : ℝ) * Real.pi / 180 = Real.pi := by
    field_simp
  rw [h, Real.cos_pi]
  ring

/-- Wind direction 180 degrees gives zero vertical wind. -/
lemma windYOf_headwind (p : TrajParams) (hdir : p.windDirection = 180) :
    windYOf p = 0 := by
  unfold windYOf
  rw [hdir]
  have h : (180 : ℝ) * Real.pi / 180 = Real.pi := by
    field_simp
  rw [h, Real.sin_pi, mul_zero]

/-- The relative speed under a pure headwind. -/
lemma vRelOf_headwind (p : TrajParams) (hdir : p.windDirection = 180) (s : TrajState) :
    vRelOf p s = Real.sqrt ((s.vx + p.windSpeed) * (s.vx + p.windSpeed) + s.vy * s.vy) := by
  unfold vRelOf
  rw [windXOf_headwind p hdir, windYOf_headwind p hdir]
  norm_num [sub_neg_eq_add]

/-- The Euler step under a pure headwind, in closed form: when the
horizontal relative speed is positive the zero-speed guard is passed
and both drag accelerations simplify to `-dragCoefOf p * vRel * vRelC`
per component. -/
lemma trajStep_headwind (p : TrajParams) (hdir : p.windDirection = 180) (s : TrajState)
    (hpos : 0 < s.vx + p.windSpeed) :
    trajStep p s =
      { vx := s.vx - dragCoefOf p * Real.sqrt ((s.vx + p.windSpeed) * (s.vx + p.windSpeed) + s.vy * s.vy) * (s.vx + p.windSpeed) * 0.01,
        vy := s.vy + (-p.gravity - dragCoefOf p * Real.sqrt ((s.vx + p.windSpeed) * (s.vx + p.windSpeed) + s.vy * s.vy) * s.vy) * 0.01,
        x := s.x + (s.vx - dragCoefOf p * Real.sqrt ((s.vx + p.windSpeed) * (s.vx + p.windSpeed) + s.vy * s.vy) * (s.vx + p.windSpeed) * 0.01) * 0.01,
        y := s.y + (s.vy + (-p.gravity - dragCoefOf p * Real.sqrt ((s.vx + p.windSpeed) * (s.vx + p.windSpeed) + s.vy * s.vy) * s.vy) * 0.01) * 0.01 } := by
  have hV := vRelOf_headwind p hdir s
  have hVpos : 0 < vRelOf p s := by
    rw [hV]
    exact Real.sqrt_pos.mpr (by nlinarith [sq_nonneg s.vy])
  have hVne : Real.sqrt ((s.vx + p.windSpeed) * (s.vx + p.windSpeed) + s.vy * s.vy) ≠ 0 := by
    rw [← hV]
    exact ne_of_gt hVpos
  have hm : ((lookupMaterial p.material).mass : ℝ) ≠ 0 := by
    have h := (lookup_pos p.material).1
    have h2 : (0 : ℝ) < ((lookupMaterial p.material).mass : ℝ) := by exact_mod_cast h
    exact ne_of_gt h2
  have hdx : dragAccelX p s =
      -(dragCoefOf p * Real.sqrt ((s.vx + p.windSpeed) * (s.vx + p.windSpeed) + s.vy * s.vy) * (s.vx + p.windSpeed)) := by
    unfold dragAccelX dragMagnitudeOf dragCoefOf
    rw [if_pos hVpos, windXOf_headwind p hdir, hV]
    field_simp
    ring
  have hdy : dragAccelY p s =
      -(dragCoefOf p * Real.sqrt ((s.vx + p.windSpeed) * (s.vx + p.windSpeed) + s.vy * s.vy) * s.vy) := by
    unfold dragAccelY dragMagnitudeOf dragCoefOf
    rw [if_pos hVpos, windYOf_headwind p hdir, hV]
    field_simp
    ring
  unfold trajStep
  rw [hdx, hdy]
  simp only [TrajState.mk.injEq]
  refine ⟨by ring, by ring, by ring, by ring⟩

/-- The drag factor of the reversal parameter set is the basketball
constant `KB`. -/
lemma dragCoefOf_pRev (w : ℝ) : dragCoefOf (pRev w) = KB := by
  unfold dragCoefOf
  rw [show (pRev w).material = "basketball" from rfl, lookup_basketball,
    show (pRev w).airDensity = AIR_DENSITY from rfl]
  unfold KB AIR_DENSITY
  norm_num

/-- The initial state of the reversal launch. -/
lemma initState_pRev (w : ℝ) :
    initState (pRev w) = { vx := 10, vy := 0, x := 0, y := 0.00294 } := by
  unfold initState pRev
  simp

/-- First iteration at `pRev 0`. -/
lemma pRev0_step1 :
    trajStep (pRev 0) (initState (pRev 0)) =
      { vx := vx1₀, vy := -0.0981, x := vx1₀ * 0.01, y := 0.001959 } := by
  rw [initState_pRev]
  rw [trajStep_headwind (pRev 0) rfl _ (show (0 : ℝ) < 10 + 0 by norm_num)]
  rw [show (pRev 0).windSpeed = 0 from rfl, show (pRev 0).gravity = GRAVITY from rfl,
    dragCoefOf_pRev]
  have hs : Real.sqrt (((10 : ℝ) + 0) * ((10 : ℝ) + 0) + 0 * 0) = 10 := by
    rw [show ((10 : ℝ) + 0) * ((10 : ℝ) + 0) + 0 * 0 = 10 * 10 by norm_num]
    exact Real.sqrt_mul_self (by norm_num)
  rw [hs]
  unfold GRAVITY vx1₀
  simp only [TrajState.mk.injEq]
  refine ⟨by ring, by ring, by ring, by ring⟩

/-- First iteration at `pRev 10`. -/
lemma pRev10_step1 :
    trajStep (pRev 10) (initState (pRev 10)) =
      { vx := vx1₁, vy := -0.0981, x := vx1₁ * 0.01, y := 0.001959 } := by
  rw [initState_pRev]
  rw [trajStep_headwind (pRev 10) rfl _ (show (0 : ℝ) < 10 + 10 by norm_num)]
  rw [show (pRev 10).windSpeed = (10 : ℝ) from rfl, show (pRev 10).gravity = GRAVITY from rfl,
    dragCoefOf_pRev]
  have hs : Real.sqrt (((10 : ℝ) + 10) * ((10 : ℝ) + 10) + 0 * 0) = 20 := by
    rw [show ((10 : ℝ) + 10) * ((10 : ℝ) + 10) + 0 * 0 = 20 * 20 by norm_num]
    exact Real.sqrt_mul_self (by norm_num)
  rw [hs]
  unfold GRAVITY vx1₁
  simp only [TrajState.mk.injEq]
  refine ⟨by ring, by ring, by ring, by ring⟩

/-- The basketball drag factor lies in `[0.0206622, 0.0206623]`. -/
lemma KB_bounds : 0.0206622 ≤ KB ∧ KB ≤ 0.0206623 := by
  have h : KB = 273603309 / 41600000000 * Real.pi := by
    unfold KB
    ring
  rw [h]
  constructor
  · nlinarith [Real.pi_gt_d6]
  · nlinarith [Real.pi_lt_d6]

/-- Second iteration at `pRev 0`. -/
lemma pRev0_step2 :
    trajStep (pRev 0) { vx := vx1₀, vy := -0.0981, x := vx1₀ * 0.01, y := 0.001959 } =
      { vx := vx2₀, vy := vy2₀, x := x2₀, y := y2₀ } := by
  have hpos : (0 : ℝ) < vx1₀ + 0 := by
    have h := KB_bounds.2
    unfold vx1₀
    linarith
  rw [trajStep_headwind (pRev 0) rfl _ hpos]
  rw [show (pRev 0).windSpeed = 0 from rfl, show (pRev 0).gravity = GRAVITY from rfl,
    dragCoefOf_pRev]
  have harg : (vx1₀ + 0) * (vx1₀ + 0) + (-0.0981 : ℝ) * (-0.0981) = vx1₀ * vx1₀ + 0.00962361 := by
    ring
  rw [harg]
  simp only [GRAVITY, x2₀, y2₀, vx2₀, vy2₀, V1₀]
  simp only [TrajState.mk.injEq]
  refine ⟨by ring_nf, by ring_nf, by ring_nf, by ring_nf⟩

/-- Second iteration at `pRev 10`. -/
lemma pRev10_step2 :
    trajStep (pRev 10) { vx := vx1₁, vy := -0.0981, x := vx1₁ * 0.01, y := 0.001959 } =
      { vx := vx2₁, vy := vy2₁, x := x2₁, y := y2₁ } := by
  have hpos : (0 : ℝ) < vx1₁ + 10 := by
    have h := KB_bounds.2
    unfold vx1₁
    linarith
  rw [trajStep_headwind (pRev 10) rfl _ hpos]
  rw [show (pRev 10).windSpeed = (10 : ℝ) from rfl, show (pRev 10).gravity = GRAVITY from rfl,
    dragCoefOf_pRev]
  have harg : (vx1₁ + 10) * (vx1₁ + 10) + (-0.0981 : ℝ) * (-0.0981) =
      (vx1₁ + 10) * (vx1₁ + 10) + 0.00962361 := by
    ring
  rw [harg]
  simp only [GRAVITY, x2₁, y2₁, vx2₁, vy2₁, V1₁]
  simp only [TrajState.mk.injEq]
  refine ⟨by ring_nf, by ring_nf, by ring_nf, by ring_nf⟩

/-- Bounds on the post-step-1 horizontal velocity at `pRev 0`. -/
lemma vx1₀_bounds : 9.9793377 ≤ vx1₀ ∧ vx1₀ ≤ 9.9793378 := by
  have h := KB_bounds
  unfold vx1₀
  constructor <;> linarith [h.1, h.2]

/-- The second-iteration relative speed at `pRev 0` is at most 10. -/
lemma V1₀_le : V1₀ ≤ 10 := by
  have h := vx1₀_bounds
  apply sqrt_le_of_sq_le _ (by norm_num)
  nlinarith [h.1, h.2]

/-- The height after two iterations of `pRev 0` is negative: the
zero-wind flight ends after two samples. -/
lemma y2₀_neg : y2₀ < 0 := by
  have hK := KB_bounds
  have hV := V1₀_le
  have hV0 : 0 ≤ V1₀ := Real.sqrt_nonneg _
  have hQ : KB * V1₀ ≤ 0.0206623 * 10 :=
    mul_le_mul hK.2 hV hV0 (by norm_num)
  unfold y2₀ vy2₀
  nlinarith [hQ]

/-- The first two samples of `pRev 0` sit above ground. -/
lemma x2₀_le : x2₀ ≤ 0.1999 := by
  have hK := KB_bounds
  have h1 := vx1₀_bounds
  have hV0 : 0 ≤ V1₀ := Real.sqrt_nonneg _
  have hP : 0 ≤ KB * V1₀ * vx1₀ * 0.01 := by
    have hKpos : (0 : ℝ) ≤ KB := le_trans (by norm_num) hK.1
    have hx : (0 : ℝ) ≤ vx1₀ := le_trans (by norm_num) h1.1
    positivity
  unfold x2₀ vx2₀
  nlinarith [hP, h1.2]

/-- Bounds on the post-step-1 horizontal velocity at `pRev 10`. -/
lemma vx1₁_bounds : 9.9173508 ≤ vx1₁ ∧ vx1₁ ≤ 9.9173512 := by
  have h := KB_bounds
  unfold vx1₁
  constructor <;> linarith [h.1, h.2]

/-- The second-iteration relative speed at `pRev 10` lies in
`[19.91, 19.92]`. -/
lemma V1₁_bounds : 19.91 ≤ V1₁ ∧ V1₁ ≤ 19.92 := by
  have h := vx1₁_bounds
  constructor
  · apply le_sqrt_of_sq_le _ (by norm_num)
    nlinarith [h.1, h.2, sq_nonneg (vx1₁ - 9.9173508)]
  · apply sqrt_le_of_sq_le _ (by norm_num)
    nlinarith [h.1, h.2, sq_nonneg (vx1₁ - 9.9173512)]

/-- The headwind drag product `KB * V1₁` lies in
`[0.411384, 0.411634]`. -/
lemma Q1₁_bounds : 0.411384 ≤ KB * V1₁ ∧ KB * V1₁ ≤ 0.411634 := by
  have hK := KB_bounds
  have hV := V1₁_bounds
  have h := mul_le_bounds hK.1 hK.2 hV.1 hV.2 (by norm_num) (by norm_num)
  constructor
  · linarith [h.1]
  · linarith [h.2]

/-- The vertical velocity after two iterations of `pRev 10` lies in
`[-0.19580, -0.19579]`. -/
lemma vy2₁_bounds : -0.19580 ≤ vy2₁ ∧ vy2₁ ≤ -0.19579 := by
  have h := Q1₁_bounds
  unfold vy2₁
  constructor <;> linarith [h.1, h.2]

/-- The height after two iterations of `pRev 10` is non-negative (but
tiny): the stronger drag of the headwind keeps the projectile airborne
for a third sample. -/
lemma y2₁_bounds : 0 ≤ y2₁ ∧ y2₁ ≤ 0.0000011 := by
  have h := Q1₁_bounds
  unfold y2₁ vy2₁
  constructor <;> nlinarith [h.1, h.2]

/-- Bounds on the post-step-2 horizontal velocity at `pRev 10`. -/
lemma vx2₁_bounds : 9.83536 ≤ vx2₁ ∧ vx2₁ ≤ 9.83542 := by
  have h1 := vx1₁_bounds
  have hQ := Q1₁_bounds
  have hA : 19.9173508 ≤ vx1₁ + 10 ∧ vx1₁ + 10 ≤ 19.9173512 := by
    constructor <;> linarith [h1.1, h1.2]
  have hP := mul_le_bounds hQ.1 hQ.2 hA.1 hA.2 (by norm_num) (by norm_num)
  unfold vx2₁
  constructor
  · nlinarith [hP.2, h1.1]
  · nlinarith [hP.1, h1.2]

/-- The third-iteration relative speed at `pRev 10` is at most 19.84. -/
lemma V2₁_le : V2₁ ≤ 19.84 := by
  have h2 := vx2₁_bounds
  have hy := vy2₁_bounds
  apply sqrt_le_of_sq_le _ (by norm_num)
  nlinarith [h2.1, h2.2, hy.1, hy.2, sq_nonneg (vx2₁ - 9.83542), sq_nonneg (vy2₁ + 0.19580)]

/-- The height after three iterations of `pRev 10` is negative: the
headwind flight ends after exactly three samples. -/
lemma y3₁_neg : y3₁ < 0 := by
  have hK := KB_bounds
  have hy2 := y2₁_bounds
  have hvy2 := vy2₁_bounds
  have hV2 := V2₁_le
  have hV20 : 0 ≤ V2₁ := Real.sqrt_nonneg _
  have hQ2 := mul_le_bounds hK.1 hK.2 hV20 hV2 (by norm_num) (le_refl 0)
  have hT : KB * V2₁ * (-vy2₁) ≤ 0.0206623 * 19.84 * 0.19580 := by
    have hQ2hi : KB * V2₁ ≤ 0.0206623 * 19.84 := by linarith [hQ2.2]
    have hQ2lo : 0 ≤ KB * V2₁ := by
      have hKpos : (0 : ℝ) ≤ KB := le_trans (by norm_num) hK.1
      positivity
    have hneg : 0 ≤ -vy2₁ := by linarith [hvy2.2]
    have hneg2 : -vy2₁ ≤ 0.19580 := by linarith [hvy2.1]
    exact (mul_le_bounds hQ2lo hQ2hi hneg hneg2 (le_refl 0) (le_refl 0)).2
  unfold y3₁ vy3₁
  nlinarith [hT, hy2.2, hvy2.2]

/-- The three samples of `pRev 10` carry the projectile past 0.295 m. -/
lemma x3₁_ge : 0.295 ≤ x3₁ := by
  have hK := KB_bounds
  have h1 := vx1₁_bounds
  have h2 := vx2₁_bounds
  have hV2 := V2₁_le
  have hV20 : 0 ≤ V2₁ := Real.sqrt_nonneg _
  have hD2 : KB * V2₁ * (vx2₁ + 10) * 0.01 ≤ 0.0206623 * 19.84 * 19.83542 * 0.01 := by
    have hQ2 := mul_le_bounds hK.1 hK.2 hV20 hV2 (by norm_num) (le_refl 0)
    have hQ2hi : KB * V2₁ ≤ 0.0206623 * 19.84 := by linarith [hQ2.2]
    have hQ2lo : 0 ≤ KB * V2₁ := by
      have hKpos : (0 : ℝ) ≤ KB := le_trans (by norm_num) hK.1
      positivity
    have hA : vx2₁ + 10 ≤ 19.83542 := by linarith [h2.2]
    have hA0 : 0 ≤ vx2₁ + 10 := by linarith [h2.1]
    have := (mul_le_bounds hQ2lo hQ2hi hA0 hA (le_refl 0) (le_refl 0)).2
    linarith [this]
  unfold x3₁ x2₁ vx3₁
  nlinarith [hD2, h1.1, h2.1]

/-- A trajectory whose height first goes negative at the third
iteration head test consists of exactly two samples. -/
lemma calcTraj_two_steps (p : TrajParams) (h0 : ¬ (initState p).y < 0)
    (h1 : ¬ (trajStep p (initState p)).y < 0)
    (h2 : (trajStep p (trajStep p (initState p))).y < 0) :
    calculateTrajectory p =
      [mkSample 0 (trajStep p (initState p)),
       mkSample 1 (trajStep p (trajStep p (initState p)))] := by
  unfold calculateTrajectory
  rw [trajGo, if_neg h0, dif_neg (by norm_num : ¬ (300 : ℝ) < (((0 : ℕ) : ℝ) + 1) / 100)]
  rw [trajGo, if_neg h1, dif_neg (by norm_num : ¬ (300 : ℝ) < (((0 + 1 : ℕ) : ℝ) + 1) / 100)]
  rw [trajGo, if_pos h2]

/-- A trajectory whose height first goes negative at the fourth
iteration head test consists of exactly three samples. -/
lemma calcTraj_three_steps (p : TrajParams) (h0 : ¬ (initState p).y < 0)
    (h1 : ¬ (trajStep p (initState p)).y < 0)
    (h2 : ¬ (trajStep p (trajStep p (initState p))).y < 0)
    (h3 : (trajStep p (trajStep p (trajStep p (initState p)))).y < 0) :
    calculateTrajectory p =
      [mkSample 0 (trajStep p (initState p)),
       mkSample 1 (trajStep p (trajStep p (initState p))),
       mkSample 2 (trajStep p (trajStep p (trajStep p (initState p))))] := by
  unfold calculateTrajectory
  rw [trajGo, if_neg h0, dif_neg (by norm_num : ¬ (300 : ℝ) < (((0 : ℕ) : ℝ) + 1) / 100)]
  rw [trajGo, if_neg h1, dif_neg (by norm_num : ¬ (300 : ℝ) < (((0 + 1 : ℕ) : ℝ) + 1) / 100)]
  rw [trajGo, if_neg h2, dif_neg (by norm_num : ¬ (300 : ℝ) < (((0 + 1 + 1 : ℕ) : ℝ) + 1) / 100)]
  rw [trajGo, if_pos h3]

/-- The zero-wind flight at the reversal height lands with (rounded)
range `rnd 3 x2₀`. -/
lemma rangeOf_pRev0 : rangeOf (pRev 0) = rnd 3 x2₀ := by
  have h0 : ¬ (initState (pRev 0)).y < 0 := by
    rw [initState_pRev]
    norm_num
  have h1 : ¬ (trajStep (pRev 0) (initState (pRev 0))).y < 0 := by
    rw [pRev0_step1]
    norm_num
  have h2 : (trajStep (pRev 0) (trajStep (pRev 0) (initState (pRev 0)))).y < 0 := by
    rw [pRev0_step1, pRev0_step2]
    exact y2₀_neg
  unfold rangeOf
  rw [calcTraj_two_steps (pRev 0) h0 h1 h2, pRev0_step1, pRev0_step2]
  simp [mkSample, List.getLastD]

/-- The headwind-10 flight at the reversal height lands with (rounded)
range `rnd 3 x3₁`. -/
lemma rangeOf_pRev10 : rangeOf (pRev 10) = rnd 3 x3₁ := by
  have hpos3 : (0 : ℝ) < vx2₁ + 10 := by
    have h := vx2₁_bounds
    linarith [h.1]
  have hstep3 : trajStep (pRev 10) { vx := vx2₁, vy := vy2₁, x := x2₁, y := y2₁ } =
      { vx := vx3₁, vy := vy3₁, x := x3₁, y := y3₁ } := by
    rw [trajStep_headwind (pRev 10) rfl _ hpos3]
    rw [show (pRev 10).windSpeed = (10 : ℝ) from rfl, show (pRev 10).gravity = GRAVITY from rfl,
      dragCoefOf_pRev]
    simp only [GRAVITY, x3₁, y3₁, vx3₁, vy3₁, V2₁, x2₁, y2₁]
  have h0 : ¬ (initState (pRev 10)).y < 0 := by
    rw [initState_pRev]
    norm_num
  have h1 : ¬ (trajStep (pRev 10) (initState (pRev 10))).y < 0 := by
    rw [pRev10_step1]
    norm_num
  have h2 : ¬ (trajStep (pRev 10) (trajStep (pRev 10) (initState (pRev 10)))).y < 0 := by
    rw [pRev10_step1, pRev10_step2]
    exact not_lt.mpr y2₁_bounds.1
  have h3 : (trajStep (pRev 10) (trajStep (pRev 10) (trajStep (pRev 10) (initState (pRev 10))))).y < 0 := by
    rw [pRev10_step1, pRev10_step2, hstep3]
    exact y3₁_neg
  unfold rangeOf
  rw [calcTraj_three_steps (pRev 10) h0 h1 h2 h3, pRev10_step1, pRev10_step2, hstep3]
  simp [mkSample, List.getLastD]

/-- C9 (amended): what survives of the headwind claim.  (1) For every
rightward launch — any height, speed, launch angle strictly between
-90 and 90 degrees, any material, any positive air density, any
gravity — a stronger pure headwind strictly decreases the horizontal
velocity produced by the first integration step.  (2) For ground-level
flat launches the pre-rounding range strictly decreases with headwind
speed, and (3) the returned (3-decimal rounded) range is
non-increasing in it.  The original claim's strict decrease of the
returned range over all valid parameter sets is false (see the
counterexample: rounding can tie it, and on elevated launches a
headwind can even increase it). -/
theorem C9_headwind_range (hh v0 a ρ g w1 w2 : ℝ) (mat : String)
    (hv : 0 < v0) (ha1 : -90 < a) (ha2 : a < 90) (hρ : 0 < ρ) (hw1 : 0 ≤ w1) (h12 : w1 < w2) :
    (trajStep (pGen hh v0 a mat w2 ρ g) (initState (pGen hh v0 a mat w2 ρ g))).vx <
      (trajStep (pGen hh v0 a mat w1 ρ g) (initState (pGen hh v0 a mat w1 ρ g))).vx ∧
    (trajStep (pFlat v0 w2) (initState (pFlat v0 w2))).x <
      (trajStep (pFlat v0 w1) (initState (pFlat v0 w1))).x ∧
    rangeOf (pFlat v0 w2) ≤ rangeOf (pFlat v0 w1) := by
  have hw2 : 0 ≤ w2 := le_trans hw1 h12.le
  constructor
  · -- general first-step deceleration
    have hcos : 0 < Real.cos (a * Real.pi / 180) := by
      apply Real.cos_pos_of_mem_Ioo
      constructor
      · show -(Real.pi / 2) < a * Real.pi / 180
        nlinarith [Real.pi_pos, mul_pos (show (0 : ℝ) < a + 90 by linarith) Real.pi_pos]
      · show a * Real.pi / 180 < Real.pi / 2
        nlinarith [Real.pi_pos, mul_pos (show (0 : ℝ) < 90 - a by linarith) Real.pi_pos]
    have hX : 0 < v0 * Real.cos (a * Real.pi / 180) := mul_pos hv hcos
    have hpos1 : 0 < (initState (pGen hh v0 a mat w1 ρ g)).vx + (pGen hh v0 a mat w1 ρ g).windSpeed := by
      show 0 < v0 * Real.cos (a * Real.pi / 180) + w1
      linarith
    have hpos2 : 0 < (initState (pGen hh v0 a mat w2 ρ g)).vx + (pGen hh v0 a mat w2 ρ g).windSpeed := by
      show 0 < v0 * Real.cos (a * Real.pi / 180) + w2
      linarith
    rw [trajStep_headwind (pGen hh v0 a mat w1 ρ g) rfl _ hpos1,
      trajStep_headwind (pGen hh v0 a mat w2 ρ g) rfl _ hpos2]
    show v0 * Real.cos (a * Real.pi / 180) -
        dragCoefOf (pGen hh v0 a mat w1 ρ g) *
          Real.sqrt ((v0 * Real.cos (a * Real.pi / 180) + w2) * (v0 * Real.cos (a * Real.pi / 180) + w2) +
            v0 * Real.sin (a * Real.pi / 180) * (v0 * Real.sin (a * Real.pi / 180))) *
          (v0 * Real.cos (a * Real.pi / 180) + w2) * 0.01 <
      v0 * Real.cos (a * Real.pi / 180) -
        dragCoefOf (pGen hh v0 a mat w1 ρ g) *
          Real.sqrt ((v0 * Real.cos (a * Real.pi / 180) + w1) * (v0 * Real.cos (a * Real.pi / 180) + w1) +
            v0 * Real.sin (a * Real.pi / 180) * (v0 * Real.sin (a * Real.pi / 180))) *
          (v0 * Real.cos (a * Real.pi / 180) + w1) * 0.01
    have hC : 0 < dragCoefOf (pGen hh v0 a mat w1 ρ g) := by
      unfold dragCoefOf
      have h := lookup_pos (pGen hh v0 a mat w1 ρ g).material
      have h1 : (0 : ℝ) < ((lookupMaterial (pGen hh v0 a mat w1 ρ g).material).dragCoeff : ℝ) := by
        exact_mod_cast h.2.2
      have h2 : (0 : ℝ) < ((lookupMaterial (pGen hh v0 a mat w1 ρ g).material).radius : ℝ) := by
        exact_mod_cast h.2.1
      have h3 : (0 : ℝ) < ((lookupMaterial (pGen hh v0 a mat w1 ρ g).material).mass : ℝ) := by
        exact_mod_cast h.1
      have hρ2 : (pGen hh v0 a mat w1 ρ g).airDensity = ρ := rfl
      rw [hρ2]
      exact div_pos (mul_pos (mul_pos (mul_pos (by norm_num) h1) hρ)
        (mul_pos (mul_pos Real.pi_pos h2) h2)) h3
    have hV1pos : 0 < Real.sqrt ((v0 * Real.cos (a * Real.pi / 180) + w1) * (v0 * Real.cos (a * Real.pi / 180) + w1) +
        v0 * Real.sin (a * Real.pi / 180) * (v0 * Real.sin (a * Real.pi / 180))) := by
      apply Real.sqrt_pos.mpr
      nlinarith [sq_nonneg (v0 * Real.sin (a * Real.pi / 180)), mul_pos (show (0:ℝ) < v0 * Real.cos (a * Real.pi / 180) + w1 by linarith) (show (0:ℝ) < v0 * Real.cos (a * Real.pi / 180) + w1 by linarith)]
    have hVle : Real.sqrt ((v0 * Real.cos (a * Real.pi / 180) + w1) * (v0 * Real.cos (a * Real.pi / 180) + w1) +
          v0 * Real.sin (a * Real.pi / 180) * (v0 * Real.sin (a * Real.pi / 180))) ≤
        Real.sqrt ((v0 * Real.cos (a * Real.pi / 180) + w2) * (v0 * Real.cos (a * Real.pi / 180) + w2) +
          v0 * Real.sin (a * Real.pi / 180) * (v0 * Real.sin (a * Real.pi / 180))) := by
      apply Real.sqrt_le_sqrt
      nlinarith [hX]
    have hprod := mul_lt_mul' hVle (show v0 * Real.cos (a * Real.pi / 180) + w1 < v0 * Real.cos (a * Real.pi / 180) + w2 by linarith)
      (by linarith) (lt_of_lt_of_le hV1pos hVle)
    nlinarith [mul_lt_mul_of_pos_left hprod (mul_pos hC (show (0 : ℝ) < 0.01 by norm_num))]
  constructor
  · -- flat family: pre-rounding range strictly decreases
    have hmono : flatVx1 v0 w2 * 0.01 < flatVx1 v0 w1 * 0.01 := by
      have hdiff : flatVx1 v0 w1 * 0.01 - flatVx1 v0 w2 * 0.01 =
          0.5 * 0.47 * 1.225 * 0.1194 * 0.1194 / 0.624 * 0.01 * 0.01 *
            (Real.pi * ((v0 + w2) * (v0 + w2) - (v0 + w1) * (v0 + w1))) := by
        unfold flatVx1
        ring
      have hsq : 0 < (v0 + w2) * (v0 + w2) - (v0 + w1) * (v0 + w1) := by nlinarith
      have hpos : 0 < Real.pi * ((v0 + w2) * (v0 + w2) - (v0 + w1) * (v0 + w1)) :=
        mul_pos Real.pi_pos hsq
      have hc : (0 : ℝ) < 0.5 * 0.47 * 1.225 * 0.1194 * 0.1194 / 0.624 * 0.01 * 0.01 := by norm_num
      have hcp := mul_pos hc hpos
      linarith [hdiff, hcp]
    rw [trajStep_pFlat v0 w2 hv hw2, trajStep_pFlat v0 w1 hv hw1]
    exact hmono
  · -- flat family: rounded range non-increasing
    have hmono : flatVx1 v0 w2 * 0.01 ≤ flatVx1 v0 w1 * 0.01 := by
      have hdiff : flatVx1 v0 w1 * 0.01 - flatVx1 v0 w2 * 0.01 =
          0.5 * 0.47 * 1.225 * 0.1194 * 0.1194 / 0.624 * 0.01 * 0.01 *
            (Real.pi * ((v0 + w2) * (v0 + w2) - (v0 + w1) * (v0 + w1))) := by
        unfold flatVx1
        ring
      have hsq : 0 < (v0 + w2) * (v0 + w2) - (v0 + w1) * (v0 + w1) := by nlinarith
      have hpos : 0 < Real.pi * ((v0 + w2) * (v0 + w2) - (v0 + w1) * (v0 + w1)) :=
        mul_pos Real.pi_pos hsq
      have hc : (0 : ℝ) < 0.5 * 0.47 * 1.225 * 0.1194 * 0.1194 / 0.624 * 0.01 * 0.01 := by norm_num
      have hcp := mul_pos hc hpos
      linarith [hdiff, hcp]
    rw [rangeOf_pFlat v0 w2 hv hw2, rangeOf_pFlat v0 w1 hv hw1]
    exact rnd_mono hmono

/-- C9 witness: the amended theorem at height 0, speed 10, angle 45,
basketball, default air density and gravity, headwinds 0 and 1. -/
theorem C9_headwind_range_witness :
    (trajStep (pGen 0 10 45 "basketball" 1 1.225 9.81) (initState (pGen 0 10 45 "basketball" 1 1.225 9.81))).vx <
      (trajStep (pGen 0 10 45 "basketball" 0 1.225 9.81) (initState (pGen 0 10 45 "basketball" 0 1.225 9.81))).vx ∧
    (trajStep (pFlat 10 1) (initState (pFlat 10 1))).x <
      (trajStep (pFlat 10 0) (initState (pFlat 10 0))).x ∧
    rangeOf (pFlat 10 1) ≤ rangeOf (pFlat 10 0) :=
  C9_headwind_range 0 10 45 1.225 9.81 0 1 "basketball"
    (by norm_num) (by norm_num) (by norm_num) (by norm_num) (le_refl 0) (by norm_num)

/-- C9 counterexample: two concrete refutations.  (1) Strictness fails
to rounding: with speed 10, flat ground-level launch, headwinds `1e-6`
and `0` return the same range `0.1`.  (2) Even the non-strict version
fails on elevated launches: from height `0.00294` at speed 10 the
headwind-10 flight stays airborne one extra integration step (the
larger relative speed strengthens the upward drag while falling) and
lands at range `0.295`, strictly beyond the zero-wind range `0.199`. -/
theorem C9_headwind_range_counterexample :
    rangeOf (pFlat 10 (1 / 1000000)) = rangeOf (pFlat 10 0) ∧
    rangeOf (pRev 0) < rangeOf (pRev 10) ∧
    ¬ rangeOf (pRev 10) < rangeOf (pRev 0) := by
  have hrev : rangeOf (pRev 0) < rangeOf (pRev 10) := by
    rw [rangeOf_pRev0, rangeOf_pRev10]
    have h2 := abs_le.mp (abs_rnd3_sub x2₀)
    have h3 := abs_le.mp (abs_rnd3_sub x3₁)
    have hx2 := x2₀_le
    have hx3 := x3₁_ge
    linarith [h2.1, h2.2, h3.1, h3.2]
  refine ⟨?_, hrev, not_lt.mpr (le_of_lt hrev)⟩
  have h1 : rangeOf (pFlat 10 (1 / 1000000)) = rnd 3 (flatVx1 10 (1 / 1000000) * 0.01) :=
    rangeOf_pFlat 10 (1 / 1000000) (by norm_num) (by norm_num)
  have h2 : rangeOf (pFlat 10 0) = rnd 3 (flatVx1 10 0 * 0.01) :=
    rangeOf_pFlat 10 0 (by norm_num) (le_refl 0)
  have e1 := rnd3_flat_small (1 / 1000000) (by norm_num) (by norm_num)
  have e2 := rnd3_flat_small 0 (le_refl 0) (by norm_num)
  rw [h1, h2, e1, e2]
